import Mathlib

/-!
# SVM core — shallow embedding

A shallow embedding of the SVM core (binary codec, section envelope encoder,
fixed storage layout, and the default runtime's deploy/spawn/call pipeline),
together with theorems settling the specification's claims about it.

Modules of the repository that are declared but whose sources are missing
(`ext.rs`, `version.rs`, `inputdata.rs`, the receipt error/gas/logs codecs,
`svm-types`, `svm-gas`) are modelled from the specification; their doc
comments say so explicitly.
-/

namespace Svm

/-- A wire byte. The codec's buffers are `Vec<u8>`; we model a byte as a
natural number, with `< 256` tracked by well-formedness predicates. -/
abbrev Byte := Nat

/-- All bytes of a buffer are in range. -/
def bytesWF (bs : List Byte) : Bool := bs.all (· < 256)

/-- Big-endian bytes of a `width`-byte unsigned integer (most significant
first), as written by the codec's fixed-width integer writers. -/
def natToBytesBE : Nat → Nat → List Byte
  | 0, _ => []
  | n + 1, v => natToBytesBE n (v / 256) ++ [v % 256]

/-- Big-endian value of a byte string, as read by the codec's fixed-width
integer readers. -/
def bytesToNatBE (bs : List Byte) : Nat := bs.foldl (fun acc b => acc * 256 + b) 0

theorem natToBytesBE_length (n v : Nat) : (natToBytesBE n v).length = n := by
  induction n generalizing v with
  | zero => rfl
  | succ n ih => simp [natToBytesBE, ih]

theorem bytesToNatBE_append_singleton (l : List Byte) (b : Byte) :
    bytesToNatBE (l ++ [b]) = bytesToNatBE l * 256 + b := by
  simp [bytesToNatBE, List.foldl_append]

theorem bytesToNatBE_natToBytesBE (n v : Nat) :
    bytesToNatBE (natToBytesBE n v) = v % 256 ^ n := by
  induction n generalizing v with
  | zero => simp [natToBytesBE, bytesToNatBE, Nat.mod_one]
  | succ n ih =>
      rw [natToBytesBE, bytesToNatBE_append_singleton, ih]
      rw [pow_succ, mul_comm (256 ^ n) 256, Nat.mod_mul]
      ring

theorem bytesToNatBE_natToBytesBE_of_lt (n v : Nat) (h : v < 256 ^ n) :
    bytesToNatBE (natToBytesBE n v) = v := by
  rw [bytesToNatBE_natToBytesBE, Nat.mod_eq_of_lt h]

theorem natToBytesBE_bytesWF (n v : Nat) : bytesWF (natToBytesBE n v) = true := by
  induction n generalizing v with
  | zero => rfl
  | succ n ih =>
      simp only [natToBytesBE, bytesWF, List.all_append, Bool.and_eq_true]
      refine And.intro ?_ ?_
      · exact ih (v / 256)
      · simp [Nat.mod_lt v (by decide : 0 < 256)]

/-- A UTF-8 continuation byte (`0x80..0xBF`). -/
def utf8Cont (b : Byte) : Bool := 128 ≤ b && b < 192

/-- Modelled from the spec: strings on the wire are UTF-8 bytes and decoding a
string runs `String::from_utf8` (module `ext.rs` is declared in the codec's
`lib.rs` but missing from the sources). This predicate holds exactly on valid
UTF-8 byte strings (shortest-form, surrogates excluded). -/
def validUtf8 : List Byte → Bool
  | [] => true
  | b :: rest =>
    if b < 128 then validUtf8 rest
    else if b < 194 then false
    else if b < 224 then
      match rest with
      | c1 :: rest2 => utf8Cont c1 && validUtf8 rest2
      | [] => false
    else if b = 224 then
      match rest with
      | c1 :: c2 :: rest2 => (160 ≤ c1 && c1 < 192) && utf8Cont c2 && validUtf8 rest2
      | _ => false
    else if b < 237 then
      match rest with
      | c1 :: c2 :: rest2 => utf8Cont c1 && utf8Cont c2 && validUtf8 rest2
      | _ => false
    else if b = 237 then
      match rest with
      | c1 :: c2 :: rest2 => (128 ≤ c1 && c1 < 160) && utf8Cont c2 && validUtf8 rest2
      | _ => false
    else if b < 240 then
      match rest with
      | c1 :: c2 :: rest2 => utf8Cont c1 && utf8Cont c2 && validUtf8 rest2
      | _ => false
    else if b = 240 then
      match rest with
      | c1 :: c2 :: c3 :: rest2 =>
          (144 ≤ c1 && c1 < 192) && utf8Cont c2 && utf8Cont c3 && validUtf8 rest2
      | _ => false
    else if b < 244 then
      match rest with
      | c1 :: c2 :: c3 :: rest2 =>
          utf8Cont c1 && utf8Cont c2 && utf8Cont c3 && validUtf8 rest2
      | _ => false
    else if b = 244 then
      match rest with
      | c1 :: c2 :: c3 :: rest2 =>
          (128 ≤ c1 && c1 < 144) && utf8Cont c2 && utf8Cont c3 && validUtf8 rest2
      | _ => false
    else false

/-- Modelled from the spec: the low-level reader for a single byte
(`ReadExt::read_byte`, `ext.rs` missing from the sources). `none` models the
`std::io` error on a short read. -/
def readByte : List Byte → Option (Byte × List Byte)
  | [] => none
  | b :: rest => some (b, rest)

/-- Modelled from the spec: reading `n` raw bytes; `none` on a short read. -/
def readN (n : Nat) (bs : List Byte) : Option (List Byte × List Byte) :=
  if n ≤ bs.length then some (bs.take n, bs.drop n) else none

/-- Modelled from the spec: reading an `n`-byte big-endian unsigned integer
(§4.1: "All integers big-endian"). -/
def readBE (n : Nat) (bs : List Byte) : Option (Nat × List Byte) :=
  (readN n bs).map (fun p => (bytesToNatBE p.1, p.2))

/-- Modelled from the spec: `ReadExt::read_string` — one length byte, then
that many UTF-8 bytes (§4.1). The outer `Option` is the I/O (short-read)
error, the inner one the UTF-8 error: this mirrors the source's
`Ok(Ok(..)) / Ok(Err(..)) / Err(..)` triage in `decode_func` / `decode_name` /
`decode_ctor`. -/
def readString (bs : List Byte) : Option (Option (List Byte) × List Byte) :=
  match readByte bs with
  | none => none
  | some (n, rest) =>
    match readN n rest with
    | none => none
    | some (s, rest2) => some (if validUtf8 s then some s else none, rest2)

/-- Modelled from the spec: `WriteExt::write_byte`. Writers append to the
output buffer, as the source's `&mut Vec<u8>` writers do. -/
def writeByte (b : Byte) (w : List Byte) : List Byte := w ++ [b]

/-- Modelled from the spec: `WriteExt::write_bool` (receipts store `success`
as one byte). -/
def writeBool (b : Bool) (w : List Byte) : List Byte := w ++ [if b then 1 else 0]

/-- Modelled from the spec: an `n`-byte big-endian unsigned integer writer. -/
def writeBE (n v : Nat) (w : List Byte) : List Byte := w ++ natToBytesBE n v

/-- Modelled from the spec: `WriteExt::write_string` — one length byte then
the string's UTF-8 bytes (§4.1). -/
def writeString (s : List Byte) (w : List Byte) : List Byte := w ++ s.length :: s

/-- Modelled from the spec: `WriteExt::write_bytes` — raw bytes, no prefix. -/
def writeBytes (bs : List Byte) (w : List Byte) : List Byte := w ++ bs

theorem readN_append (l r : List Byte) : readN l.length (l ++ r) = some (l, r) := by
  simp [readN]

theorem readN_of_exact (n : Nat) (l r : List Byte) (h : l.length = n) :
    readN n (l ++ r) = some (l, r) := by
  subst h; exact readN_append l r

theorem readN_short (n : Nat) (bs : List Byte) (h : bs.length < n) : readN n bs = none := by
  simp [readN, Nat.not_le.mpr h]

theorem readBE_roundTrip (n v : Nat) (r : List Byte) (h : v < 256 ^ n) :
    readBE n (natToBytesBE n v ++ r) = some (v, r) := by
  simp [readBE, readN_of_exact n _ r (natToBytesBE_length n v),
    bytesToNatBE_natToBytesBE_of_lt n v h]

theorem readBE_short (n : Nat) (bs : List Byte) (h : bs.length < n) : readBE n bs = none := by
  simp [readBE, readN_short n bs h]

theorem readString_roundTrip (s r : List Byte) (hval : validUtf8 s = true) :
    readString (s.length :: (s ++ r)) = some (some s, r) := by
  simp [readString, readByte, readN_append, hval]

/-- Modelled from the spec: an opaque 20-byte address, bytes stored verbatim
(§3; `svm-types` is not among the sources). -/
structure Address where
  bytes : List Byte
  deriving DecidableEq

/-- A 20-byte address is well-formed when it has exactly 20 in-range bytes. -/
def Address.wf (a : Address) : Bool := a.bytes.length == 20 && bytesWF a.bytes

/-- Modelled from the spec: the `TemplateAddr` flavor of a 20-byte address. -/
structure TemplateAddr where
  inner : Address
  deriving DecidableEq

def TemplateAddr.wf (a : TemplateAddr) : Bool := a.inner.wf

/-- Modelled from the spec: the `AccountAddr` flavor of a 20-byte address. -/
structure AccountAddr where
  inner : Address
  deriving DecidableEq

def AccountAddr.wf (a : AccountAddr) : Bool := a.inner.wf

/-- Modelled from the spec: `ReadExt::read_address` — 20 raw bytes (§4.1). -/
def readAddress (bs : List Byte) : Option (Address × List Byte) :=
  (readN 20 bs).map (fun p => (Address.mk p.1, p.2))

/-- Modelled from the spec: `ReadExt::read_template_addr` — 20 raw bytes. -/
def readTemplateAddr (bs : List Byte) : Option (TemplateAddr × List Byte) :=
  (readN 20 bs).map (fun p => (TemplateAddr.mk (Address.mk p.1), p.2))

/-- Modelled from the spec: `WriteExt::write_address`. -/
def writeAddress (a : Address) (w : List Byte) : List Byte := w ++ a.bytes

/-- Modelled from the spec: `WriteExt::write_template_addr`. -/
def writeTemplateAddr (a : TemplateAddr) (w : List Byte) : List Byte := w ++ a.inner.bytes

/-- The codec's `Field` error tags (module `field.rs` is declared in `lib.rs`
but missing from the sources; the variants are those used by `call.rs` and
`spawn.rs`, plus `Version` / `InputData` modelled from the spec for the
missing `version.rs` / `inputdata.rs` modules). -/
inductive Field where
  | Version | AccountAddr | Address | Function | Name | Ctor | InputData
  deriving DecidableEq

/-- Structured codec error with a `field` tag (§7; module `error.rs` missing
from the sources, variants named by the spec's failure conditions). -/
inductive ParseError where
  | NotEnoughBytes (f : Field)
  | InvalidUTF8String (f : Field)
  deriving DecidableEq

/-- Modelled from the spec: `version::encode_version` — two bytes, big-endian
(§4.1; `version.rs` missing from the sources). -/
def encode_version (v : Nat) (w : List Byte) : List Byte := writeBE 2 v w

/-- Modelled from the spec: `version::decode_version`. -/
def decode_version (bs : List Byte) : Except ParseError (Nat × List Byte) :=
  match readBE 2 bs with
  | some p => .ok p
  | none => .error (.NotEnoughBytes .Version)

/-- Modelled from the spec: `inputdata::encode_inputdata` — a byte blob is two
length bytes then the bytes (§4.1; `inputdata.rs` missing from the sources). -/
def encode_inputdata (d : List Byte) (w : List Byte) : List Byte :=
  writeBytes d (writeBE 2 d.length w)

/-- Modelled from the spec: `inputdata::decode_inputdata`. -/
def decode_inputdata (bs : List Byte) : Except ParseError (List Byte × List Byte) :=
  match readBE 2 bs with
  | none => .error (.NotEnoughBytes .InputData)
  | some (n, rest) =>
    match readN n rest with
    | none => .error (.NotEnoughBytes .InputData)
    | some p => .ok p

/-- Modelled from the spec: `Transaction` (a `Call Account` transaction), from `svm-types` (missing
from the sources; fields as used by `call.rs` and §3 of the spec). Strings
are carried as their UTF-8 bytes. -/
structure Transaction where
  version : Nat
  target : AccountAddr
  func_name : List Byte
  calldata : List Byte
  deriving DecidableEq

/-- A `Transaction` representable on the wire: `u16` version, 20-byte target,
one-length-byte UTF-8 function name, two-length-byte calldata blob. -/
def Transaction.wf (tx : Transaction) : Bool :=
  decide (tx.version < 65536) && tx.target.wf &&
    decide (tx.func_name.length < 256) && validUtf8 tx.func_name &&
    decide (tx.calldata.length < 65536) && bytesWF tx.calldata

namespace call

/-- Source `call.rs`: `encode_version`. -/
def encode_version (tx : Transaction) (w : List Byte) : List Byte :=
  Svm.encode_version tx.version w

/-- Source `call.rs`: `encode_target` (writes `tx.target.inner()`). -/
def encode_target (tx : Transaction) (w : List Byte) : List Byte :=
  writeAddress tx.target.inner w

/-- Source `call.rs`: `encode_func`. -/
def encode_func (tx : Transaction) (w : List Byte) : List Byte :=
  writeString tx.func_name w

/-- Source `call.rs`: `encode_calldata`. -/
def encode_calldata (tx : Transaction) (w : List Byte) : List Byte :=
  encode_inputdata tx.calldata w

/-- Source `call.rs`: `encode_call` — version ‖ target ‖ func ‖ calldata (the
`verifydata` encoder is commented out in the source). -/
def encode_call (tx : Transaction) (w : List Byte) : List Byte :=
  encode_calldata tx (encode_func tx (encode_target tx (encode_version tx w)))

/-- Source `call.rs`: `decode_version`. -/
def decode_version (bs : List Byte) : Except ParseError (Nat × List Byte) :=
  Svm.decode_version bs

/-- Source `call.rs`: `decode_target` — a short read becomes
`NotEnoughBytes(AccountAddr)`. -/
def decode_target (bs : List Byte) : Except ParseError (AccountAddr × List Byte) :=
  match readAddress bs with
  | some (a, rest) => .ok (AccountAddr.mk a, rest)
  | none => .error (.NotEnoughBytes .AccountAddr)

/-- Source `call.rs`: `decode_func` — a short read becomes
`NotEnoughBytes(Function)`, invalid UTF-8 becomes `InvalidUTF8String(Function)`. -/
def decode_func (bs : List Byte) : Except ParseError (List Byte × List Byte) :=
  match readString bs with
  | some (some s, rest) => .ok (s, rest)
  | some (none, _) => .error (.InvalidUTF8String .Function)
  | none => .error (.NotEnoughBytes .Function)

/-- Source `call.rs`: `decode_call`. The returned list is the cursor's remainder. -/
def decode_call (bs : List Byte) : Except ParseError (Transaction × List Byte) := do
  let (version, bs) ← decode_version bs
  let (target, bs) ← decode_target bs
  let (func_name, bs) ← decode_func bs
  let (calldata, bs) ← decode_inputdata bs
  .ok ({ version, target, func_name, calldata }, bs)

end call

/-- Modelled from the spec: `Account` record `{ name, template_addr }`, from `svm-types` (missing from
the sources; §3 of the spec). -/
structure Account where
  name : List Byte
  template_addr : TemplateAddr
  deriving DecidableEq

/-- Modelled from the spec: `SpawnAccount`, from `svm-types` (missing from the sources; §3). -/
structure SpawnAccount where
  version : Nat
  account : Account
  ctor_name : List Byte
  calldata : List Byte
  deriving DecidableEq

def SpawnAccount.wf (s : SpawnAccount) : Bool :=
  decide (s.version < 65536) && s.account.template_addr.wf &&
    decide (s.account.name.length < 256) && validUtf8 s.account.name &&
    decide (s.ctor_name.length < 256) && validUtf8 s.ctor_name &&
    decide (s.calldata.length < 65536) && bytesWF s.calldata

namespace spawn

/-- Source `spawn.rs`: `encode_version`. -/
def encode_version (s : SpawnAccount) (w : List Byte) : List Byte :=
  Svm.encode_version s.version w

/-- Source `spawn.rs`: `encode_template`. -/
def encode_template (s : SpawnAccount) (w : List Byte) : List Byte :=
  writeTemplateAddr s.account.template_addr w

/-- Source `spawn.rs`: `encode_name`. -/
def encode_name (s : SpawnAccount) (w : List Byte) : List Byte :=
  writeString s.account.name w

/-- Source `spawn.rs`: `encode_ctor`. -/
def encode_ctor (s : SpawnAccount) (w : List Byte) : List Byte :=
  writeString s.ctor_name w

/-- Source `spawn.rs`: `encode_ctor_calldata`. -/
def encode_ctor_calldata (s : SpawnAccount) (w : List Byte) : List Byte :=
  encode_inputdata s.calldata w

/-- Source `spawn.rs`: `encode` — version ‖ template ‖ name ‖ ctor ‖ calldata. -/
def encode (s : SpawnAccount) (w : List Byte) : List Byte :=
  encode_ctor_calldata s (encode_ctor s (encode_name s (encode_template s (encode_version s w))))

/-- Source `spawn.rs`: `decode_template` — a short read becomes
`NotEnoughBytes(Address)`. -/
def decode_template (bs : List Byte) : Except ParseError (TemplateAddr × List Byte) :=
  match readTemplateAddr bs with
  | some p => .ok p
  | none => .error (.NotEnoughBytes .Address)

/-- Source `spawn.rs`: `decode_name`. -/
def decode_name (bs : List Byte) : Except ParseError (List Byte × List Byte) :=
  match readString bs with
  | some (some s, rest) => .ok (s, rest)
  | some (none, _) => .error (.InvalidUTF8String .Name)
  | none => .error (.NotEnoughBytes .Name)

/-- Source `spawn.rs`: `decode_ctor`. -/
def decode_ctor (bs : List Byte) : Except ParseError (List Byte × List Byte) :=
  match readString bs with
  | some (some s, rest) => .ok (s, rest)
  | some (none, _) => .error (.InvalidUTF8String .Ctor)
  | none => .error (.NotEnoughBytes .Ctor)

/-- Source `spawn.rs`: `decode`. -/
def decode (bs : List Byte) : Except ParseError (SpawnAccount × List Byte) := do
  let (version, bs) ← Svm.decode_version bs
  let (template_addr, bs) ← decode_template bs
  let (name, bs) ← decode_name bs
  let (ctor_name, bs) ← decode_ctor bs
  let (calldata, bs) ← decode_inputdata bs
  .ok ({ version, account := { name, template_addr }, ctor_name, calldata }, bs)

end spawn

theorem decode_version_roundTrip (v : Nat) (r : List Byte) (h : v < 65536) :
    Svm.decode_version (natToBytesBE 2 v ++ r) = .ok (v, r) := by
  simp [Svm.decode_version, readBE_roundTrip 2 v r (by simpa using h)]

theorem decode_target_roundTrip (a : AccountAddr) (r : List Byte) (h : a.wf = true) :
    call.decode_target (a.inner.bytes ++ r) = .ok (a, r) := by
  have hlen : a.inner.bytes.length = 20 := by
    simp [AccountAddr.wf, Address.wf, Bool.and_eq_true] at h
    exact h.1
  simp [call.decode_target, readAddress, readN_of_exact 20 _ r hlen]

theorem decode_template_roundTrip (a : TemplateAddr) (r : List Byte) (h : a.wf = true) :
    spawn.decode_template (a.inner.bytes ++ r) = .ok (a, r) := by
  have hlen : a.inner.bytes.length = 20 := by
    simp [TemplateAddr.wf, Address.wf, Bool.and_eq_true] at h
    exact h.1
  simp [spawn.decode_template, readTemplateAddr, readN_of_exact 20 _ r hlen]

theorem decode_func_roundTrip (s r : List Byte) (h : validUtf8 s = true) :
    call.decode_func (s.length :: (s ++ r)) = .ok (s, r) := by
  unfold call.decode_func
  rw [readString_roundTrip s r h]

theorem decode_name_roundTrip (s r : List Byte) (h : validUtf8 s = true) :
    spawn.decode_name (s.length :: (s ++ r)) = .ok (s, r) := by
  unfold spawn.decode_name
  rw [readString_roundTrip s r h]

theorem decode_ctor_roundTrip (s r : List Byte) (h : validUtf8 s = true) :
    spawn.decode_ctor (s.length :: (s ++ r)) = .ok (s, r) := by
  unfold spawn.decode_ctor
  rw [readString_roundTrip s r h]

theorem decode_inputdata_roundTrip (d r : List Byte) (h : d.length < 65536) :
    decode_inputdata (natToBytesBE 2 d.length ++ (d ++ r)) = .ok (d, r) := by
  simp [decode_inputdata, readBE_roundTrip 2 d.length _ (by simpa using h), readN_append]

theorem exceptBind_ok {ε α β : Type} (a : α) (f : α → Except ε β) :
    (Except.ok a : Except ε α) >>= f = f a := rfl

theorem call_roundTrip (tx : Transaction) (h : tx.wf = true) :
    call.decode_call (call.encode_call tx []) = .ok (tx, []) := by
  simp only [Transaction.wf, Bool.and_eq_true, decide_eq_true_eq] at h
  obtain ⟨⟨⟨⟨⟨h1, h2⟩, h3⟩, h4⟩, h5⟩, h6⟩ := h
  have e : call.encode_call tx [] =
      natToBytesBE 2 tx.version ++ (tx.target.inner.bytes ++
        (tx.func_name.length :: (tx.func_name ++
          (natToBytesBE 2 tx.calldata.length ++ (tx.calldata ++ []))))) := by
    simp [call.encode_call, call.encode_version, Svm.encode_version, call.encode_target,
      call.encode_func, call.encode_calldata, encode_inputdata, writeBE, writeAddress,
      writeString, writeBytes, List.append_assoc]
  simp only [e, call.decode_call, call.decode_version, decode_version_roundTrip,
    decode_target_roundTrip, decode_func_roundTrip, decode_inputdata_roundTrip,
    h1, h2, h4, h5, exceptBind_ok]

theorem spawn_roundTrip (s : SpawnAccount) (h : s.wf = true) :
    spawn.decode (spawn.encode s []) = .ok (s, []) := by
  simp only [SpawnAccount.wf, Bool.and_eq_true, decide_eq_true_eq] at h
  obtain ⟨⟨⟨⟨⟨⟨⟨h1, h2⟩, h3⟩, h4⟩, h5⟩, h6⟩, h7⟩, h8⟩ := h
  have e : spawn.encode s [] =
      natToBytesBE 2 s.version ++ (s.account.template_addr.inner.bytes ++
        (s.account.name.length :: (s.account.name ++
          (s.ctor_name.length :: (s.ctor_name ++
            (natToBytesBE 2 s.calldata.length ++ (s.calldata ++ []))))))) := by
    simp [spawn.encode, spawn.encode_version, Svm.encode_version, spawn.encode_template,
      spawn.encode_name, spawn.encode_ctor, spawn.encode_ctor_calldata, encode_inputdata,
      writeBE, writeTemplateAddr, writeString, writeBytes, List.append_assoc]
  simp only [e, spawn.decode, decode_version_roundTrip, decode_template_roundTrip,
    decode_name_roundTrip, decode_ctor_roundTrip, decode_inputdata_roundTrip,
    h1, h2, h4, h6, h7, exceptBind_ok]

/-- Gas, from `svm-types` (missing from the sources). Modelled from the spec
as an abstract cost counter (Glossary): `Gas.new` is the default "empty"
value, `Gas.withAmount` (the source's `Gas::with`) a concrete amount. -/
abbrev Gas := Nat

def Gas.new : Gas := 0

def Gas.withAmount (n : Nat) : Gas := n

/-- A single receipt log entry's bytes (`svm-types`' `ReceiptLog`, missing
from the sources). -/
abbrev ReceiptLog := List Byte

/-- Modelled from the spec: `gas::encode_gas_used` — `gas_used:u64`, 8 bytes
big-endian (receipt gas codec missing from the sources). -/
def encode_gas_used (g : Gas) (w : List Byte) : List Byte := writeBE 8 g w

/-- Modelled from the spec: `gas::decode_gas_used`; its callers `unwrap` the
result, so a short read is a panic (`none`). -/
def decode_gas_used (bs : List Byte) : Option (Gas × List Byte) := readBE 8 bs

/-- Modelled from the spec: `logs::encode_logs` —
`count:u16 ‖ [len:u16 ‖ bytes]*` (§4.1; receipt logs codec missing from the
sources). -/
def encode_logs (logs : List ReceiptLog) (w : List Byte) : List Byte :=
  logs.foldl (fun acc l => writeBytes l (writeBE 2 l.length acc)) (writeBE 2 logs.length w)

/-- Modelled from the spec: reading `n` log entries. -/
def decode_logs_aux : Nat → List Byte → Option (List ReceiptLog × List Byte)
  | 0, bs => some ([], bs)
  | n + 1, bs =>
    match readBE 2 bs with
    | none => none
    | some (len, r) =>
      match readN len r with
      | none => none
      | some (l, r2) =>
        match decode_logs_aux n r2 with
        | none => none
        | some (ls, r3) => some (l :: ls, r3)

/-- Modelled from the spec: `logs::decode_logs`. -/
def decode_logs (bs : List Byte) : Option (List ReceiptLog × List Byte) :=
  match readBE 2 bs with
  | none => none
  | some (n, r) => decode_logs_aux n r

/-- Modelled from the spec: `RuntimeError`, the closed variant set of §3 (`svm-types` missing from
the sources; the fields are those constructed by
`runtime/default.rs`). Function names and messages are carried as UTF-8
bytes. -/
inductive RuntimeError where
  | OOG
  | TemplateNotFound (addr : TemplateAddr)
  | AccountNotFound (addr : Address)
  | CompilationFailed (target : Address) (template : TemplateAddr) (msg : List Byte)
  | InstantiationFailed (target : Address) (template : TemplateAddr) (msg : List Byte)
  | FuncNotFound (target : Address) (template : TemplateAddr) (func : List Byte)
  | FuncFailed (target : Address) (template : TemplateAddr) (func : List Byte) (msg : List Byte)
  | FuncNotAllowed (target : Address) (template : TemplateAddr) (func : List Byte) (msg : List Byte)
  | FuncInvalidSignature (target : Address) (template : TemplateAddr) (func : List Byte)
  deriving DecidableEq

/-- A string field representable on the wire. -/
def strWF (s : List Byte) : Bool := decide (s.length < 256) && validUtf8 s

def RuntimeError.wf : RuntimeError → Bool
  | .OOG => true
  | .TemplateNotFound a => a.wf
  | .AccountNotFound a => a.wf
  | .CompilationFailed t tpl m => t.wf && tpl.wf && strWF m
  | .InstantiationFailed t tpl m => t.wf && tpl.wf && strWF m
  | .FuncNotFound t tpl f => t.wf && tpl.wf && strWF f
  | .FuncFailed t tpl f m => t.wf && tpl.wf && strWF f && strWF m
  | .FuncNotAllowed t tpl f m => t.wf && tpl.wf && strWF f && strWF m
  | .FuncInvalidSignature t tpl f => t.wf && tpl.wf && strWF f

/-- Modelled from the spec: the error-side of a failed receipt's body —
"error tag+fields" where "Error tags are a closed enumeration mirroring
RuntimeError; address-carrying variants append their addresses verbatim"
(§4.1; the receipt error codec is missing from the sources). Strings use the
wire's string form. -/
def encode_error_fields (e : RuntimeError) (w : List Byte) : List Byte :=
  match e with
  | .OOG => writeByte 0 w
  | .TemplateNotFound a => writeTemplateAddr a (writeByte 1 w)
  | .AccountNotFound a => writeAddress a (writeByte 2 w)
  | .CompilationFailed t tpl m =>
      writeString m (writeTemplateAddr tpl (writeAddress t (writeByte 3 w)))
  | .InstantiationFailed t tpl m =>
      writeString m (writeTemplateAddr tpl (writeAddress t (writeByte 4 w)))
  | .FuncNotFound t tpl f =>
      writeString f (writeTemplateAddr tpl (writeAddress t (writeByte 5 w)))
  | .FuncFailed t tpl f m =>
      writeString m (writeString f (writeTemplateAddr tpl (writeAddress t (writeByte 6 w))))
  | .FuncNotAllowed t tpl f m =>
      writeString m (writeString f (writeTemplateAddr tpl (writeAddress t (writeByte 7 w))))
  | .FuncInvalidSignature t tpl f =>
      writeString f (writeTemplateAddr tpl (writeAddress t (writeByte 8 w)))

/-- Modelled from the spec: `encode_error` writes the error, then the logs
(§4.1 receipt body, `success=0 → error tag+fields ‖ logs`). -/
def encode_error (e : RuntimeError) (logs : List ReceiptLog) (w : List Byte) : List Byte :=
  encode_logs logs (encode_error_fields e w)

/-- A string read whose caller panics on any failure. -/
def readStringPanic (bs : List Byte) : Option (List Byte × List Byte) :=
  match readString bs with
  | some (some s, r) => some (s, r)
  | _ => none

/-- Modelled from the spec: decoding the error fields; `decode_error`'s
caller treats malformed input as a panic (`none`). -/
def decode_error_fields (bs : List Byte) : Option (RuntimeError × List Byte) :=
  match readByte bs with
  | none => none
  | some (tag, r) =>
    match tag with
    | 0 => some (.OOG, r)
    | 1 => (readTemplateAddr r).map (fun p => (.TemplateNotFound p.1, p.2))
    | 2 => (readAddress r).map (fun p => (.AccountNotFound p.1, p.2))
    | 3 =>
      match readAddress r with
      | none => none
      | some (t, r1) =>
        match readTemplateAddr r1 with
        | none => none
        | some (tpl, r2) =>
          (readStringPanic r2).map (fun p => (.CompilationFailed t tpl p.1, p.2))
    | 4 =>
      match readAddress r with
      | none => none
      | some (t, r1) =>
        match readTemplateAddr r1 with
        | none => none
        | some (tpl, r2) =>
          (readStringPanic r2).map (fun p => (.InstantiationFailed t tpl p.1, p.2))
    | 5 =>
      match readAddress r with
      | none => none
      | some (t, r1) =>
        match readTemplateAddr r1 with
        | none => none
        | some (tpl, r2) =>
          (readStringPanic r2).map (fun p => (.FuncNotFound t tpl p.1, p.2))
    | 6 =>
      match readAddress r with
      | none => none
      | some (t, r1) =>
        match readTemplateAddr r1 with
        | none => none
        | some (tpl, r2) =>
          match readStringPanic r2 with
          | none => none
          | some (f, r3) => (readStringPanic r3).map (fun p => (.FuncFailed t tpl f p.1, p.2))
    | 7 =>
      match readAddress r with
      | none => none
      | some (t, r1) =>
        match readTemplateAddr r1 with
        | none => none
        | some (tpl, r2) =>
          match readStringPanic r2 with
          | none => none
          | some (f, r3) => (readStringPanic r3).map (fun p => (.FuncNotAllowed t tpl f p.1, p.2))
    | 8 =>
      match readAddress r with
      | none => none
      | some (t, r1) =>
        match readTemplateAddr r1 with
        | none => none
        | some (tpl, r2) =>
          (readStringPanic r2).map (fun p => (.FuncInvalidSignature t tpl p.1, p.2))
    | _ => none

/-- Modelled from the spec: `decode_error` reads the error, then the logs. -/
def decode_error (bs : List Byte) : Option ((RuntimeError × List ReceiptLog) × List Byte) :=
  match decode_error_fields bs with
  | none => none
  | some (e, r) => (decode_logs r).map (fun p => ((e, p.1), p.2))

/-- Modelled from the spec: `DeployReceipt`, from `svm-types` (missing from the sources; fields as
used by `receipt/deploy.rs` and §3 of the spec). -/
structure DeployReceipt where
  version : Nat
  success : Bool
  error : Option RuntimeError
  addr : Option TemplateAddr
  gas_used : Gas
  logs : List ReceiptLog
  deriving DecidableEq

/-- Modelled from the spec: `DeployReceipt::from_err` (modelled from the spec: on failure only error
and logs are meaningful; the remaining fields take their defaults). -/
def DeployReceipt.from_err (e : RuntimeError) (logs : List ReceiptLog) : DeployReceipt :=
  { version := 0, success := false, error := some e, addr := none, gas_used := Gas.new, logs }

/-- Modelled from the spec: `DeployReceipt::new` (modelled from the spec: a successful deploy carries
the new template address and the priced gas). -/
def DeployReceipt.new (addr : TemplateAddr) (gas_used : Gas) : DeployReceipt :=
  { version := 0, success := true, error := none, addr := some addr, gas_used, logs := [] }

/-- Modelled from the spec: `DeployReceipt::new_oog`. -/
def DeployReceipt.new_oog : DeployReceipt := DeployReceipt.from_err .OOG []

/-- Modelled from the spec: the receipt type tag for Deploy
(`types::DEPLOY`, receipt types module missing from the sources). -/
def types_DEPLOY : Byte := 0

/-- Source `receipt/deploy.rs`: `encode_deploy`. `receipt.template_addr()` /
`receipt.error()` unwrap the respective `Option`s, hence the `none` (panic)
cases. On the failure path the source encodes a fresh empty `logs` vector,
not the receipt's own logs. -/
def encode_deploy (receipt : DeployReceipt) : Option (List Byte) :=
  let w := writeBool receipt.success (Svm.encode_version receipt.version (writeByte types_DEPLOY []))
  if receipt.success then
    match receipt.addr with
    | none => none
    | some addr =>
        some (encode_logs receipt.logs (encode_gas_used receipt.gas_used (writeTemplateAddr addr w)))
  else
    match receipt.error with
    | none => none
    | some e => some (encode_error e [] w)

/-- Source `receipt/deploy.rs`: `decode_deploy`. Every read is `unwrap`ped /
`expect`ed in the source, so a malformed input is a panic (`none`); the
`debug_assert`s are disabled in release builds and are not modelled. -/
def decode_deploy (bs : List Byte) : Option DeployReceipt :=
  match readByte bs with
  | none => none
  | some (_ty, r) =>
    match Svm.decode_version r with
    | .error _ => none
    | .ok (version, r1) =>
      match readByte r1 with
      | none => none
      | some (b, r2) =>
        match b with
        | 0 =>
          match decode_error r2 with
          | none => none
          | some ((err, logs), _) => some (DeployReceipt.from_err err logs)
        | 1 =>
          match readTemplateAddr r2 with
          | none => none
          | some (addr, r3) =>
            match decode_gas_used r3 with
            | none => none
            | some (gas_used, r4) =>
              match decode_logs r4 with
              | none => none
              | some (logs, _) =>
                some { version, success := true, error := none, addr := some addr, gas_used, logs }
        | _ => none

/-- Logs representable on the wire. -/
def logsWF (logs : List ReceiptLog) : Bool :=
  decide (logs.length < 65536) && logs.all (fun l => decide (l.length < 65536) && bytesWF l)

/-- A `DeployReceipt` representable on the wire: a successful receipt carries
a template address and no error; a failed one is `from_err`-shaped. -/
def DeployReceipt.wf (r : DeployReceipt) : Bool :=
  if r.success then
    decide (r.version < 65536) && (match r.addr with | some a => a.wf | none => false) &&
      (r.error == none) && decide (r.gas_used < 2 ^ 64) && logsWF r.logs
  else
    (r.version == 0) && (r.addr == none) && (r.gas_used == Gas.new) &&
      (match r.error with | some e => e.wf | none => false) && logsWF r.logs

theorem readAddress_roundTrip (a : Address) (r : List Byte) (h : a.wf = true) :
    readAddress (a.bytes ++ r) = some (a, r) := by
  have hlen : a.bytes.length = 20 := by
    simp [Address.wf, Bool.and_eq_true] at h
    exact h.1
  simp [readAddress, readN_of_exact 20 _ r hlen]

theorem readTemplateAddr_roundTrip (a : TemplateAddr) (r : List Byte) (h : a.wf = true) :
    readTemplateAddr (a.inner.bytes ++ r) = some (a, r) := by
  have hlen : a.inner.bytes.length = 20 := by
    simp [TemplateAddr.wf, Address.wf, Bool.and_eq_true] at h
    exact h.1
  simp [readTemplateAddr, readN_of_exact 20 _ r hlen]

theorem readStringPanic_roundTrip (s r : List Byte) (h : validUtf8 s = true) :
    readStringPanic (s.length :: (s ++ r)) = some (s, r) := by
  unfold readStringPanic
  rw [readString_roundTrip s r h]

theorem encode_logs_shape (logs : List ReceiptLog) (w : List Byte) :
    encode_logs logs w =
      w ++ natToBytesBE 2 logs.length ++
        (logs.map (fun l => natToBytesBE 2 l.length ++ l)).flatten := by
  unfold encode_logs
  rw [writeBE]
  generalize w ++ natToBytesBE 2 logs.length = acc
  induction logs generalizing acc with
  | nil => simp
  | cons l ls ih =>
      rw [List.foldl_cons, ih]
      simp [writeBytes, writeBE, List.append_assoc]

theorem decode_logs_aux_roundTrip (logs : List ReceiptLog) (r : List Byte)
    (h : logs.all (fun l => decide (l.length < 65536) && bytesWF l) = true) :
    decode_logs_aux logs.length
      ((logs.map (fun l => natToBytesBE 2 l.length ++ l)).flatten ++ r) = some (logs, r) := by
  induction logs with
  | nil => simp [decode_logs_aux]
  | cons l ls ih =>
      simp only [List.all_cons, Bool.and_eq_true, decide_eq_true_eq] at h
      rw [List.length_cons, List.map_cons, List.flatten_cons, decode_logs_aux,
        List.append_assoc, List.append_assoc]
      simp [readBE_roundTrip 2 l.length _ (by simpa using h.1.1), readN_append, ih h.2]

theorem decode_logs_roundTrip (logs : List ReceiptLog) (r : List Byte)
    (h : logsWF logs = true) :
    decode_logs (natToBytesBE 2 logs.length ++
      ((logs.map (fun l => natToBytesBE 2 l.length ++ l)).flatten ++ r)) = some (logs, r) := by
  simp only [logsWF, Bool.and_eq_true, decide_eq_true_eq] at h
  rw [decode_logs, readBE_roundTrip 2 logs.length _ (by simpa using h.1)]
  exact decode_logs_aux_roundTrip logs r h.2

theorem decode_error_fields_roundTrip (e : RuntimeError) (r : List Byte) (h : e.wf = true) :
    decode_error_fields (encode_error_fields e [] ++ r) = some (e, r) := by
  cases e with
  | OOG => simp [encode_error_fields, decode_error_fields, writeByte, readByte]
  | TemplateNotFound a =>
      simp only [RuntimeError.wf] at h
      simp [encode_error_fields, decode_error_fields, writeByte, writeTemplateAddr, readByte,
        List.append_assoc, readTemplateAddr_roundTrip a r h]
  | AccountNotFound a =>
      simp only [RuntimeError.wf] at h
      simp [encode_error_fields, decode_error_fields, writeByte, writeAddress, readByte,
        List.append_assoc, readAddress_roundTrip a r h]
  | CompilationFailed t tpl m =>
      simp only [RuntimeError.wf, Bool.and_eq_true, strWF, decide_eq_true_eq] at h
      simp [encode_error_fields, decode_error_fields, writeByte, writeAddress,
        writeTemplateAddr, writeString, readByte, List.append_assoc,
        readAddress_roundTrip t _ h.1.1, readTemplateAddr_roundTrip tpl _ h.1.2,
        readStringPanic_roundTrip m r h.2.2]
  | InstantiationFailed t tpl m =>
      simp only [RuntimeError.wf, Bool.and_eq_true, strWF, decide_eq_true_eq] at h
      simp [encode_error_fields, decode_error_fields, writeByte, writeAddress,
        writeTemplateAddr, writeString, readByte, List.append_assoc,
        readAddress_roundTrip t _ h.1.1, readTemplateAddr_roundTrip tpl _ h.1.2,
        readStringPanic_roundTrip m r h.2.2]
  | FuncNotFound t tpl f =>
      simp only [RuntimeError.wf, Bool.and_eq_true, strWF, decide_eq_true_eq] at h
      simp [encode_error_fields, decode_error_fields, writeByte, writeAddress,
        writeTemplateAddr, writeString, readByte, List.append_assoc,
        readAddress_roundTrip t _ h.1.1, readTemplateAddr_roundTrip tpl _ h.1.2,
        readStringPanic_roundTrip f r h.2.2]
  | FuncFailed t tpl f m =>
      simp only [RuntimeError.wf, Bool.and_eq_true, strWF, decide_eq_true_eq] at h
      simp [encode_error_fields, decode_error_fields, writeByte, writeAddress,
        writeTemplateAddr, writeString, readByte, List.append_assoc,
        readAddress_roundTrip t _ h.1.1.1, readTemplateAddr_roundTrip tpl _ h.1.1.2,
        readStringPanic_roundTrip f _ h.1.2.2, readStringPanic_roundTrip m r h.2.2]
  | FuncNotAllowed t tpl f m =>
      simp only [RuntimeError.wf, Bool.and_eq_true, strWF, decide_eq_true_eq] at h
      simp [encode_error_fields, decode_error_fields, writeByte, writeAddress,
        writeTemplateAddr, writeString, readByte, List.append_assoc,
        readAddress_roundTrip t _ h.1.1.1, readTemplateAddr_roundTrip tpl _ h.1.1.2,
        readStringPanic_roundTrip f _ h.1.2.2, readStringPanic_roundTrip m r h.2.2]
  | FuncInvalidSignature t tpl f =>
      simp only [RuntimeError.wf, Bool.and_eq_true, strWF, decide_eq_true_eq] at h
      simp [encode_error_fields, decode_error_fields, writeByte, writeAddress,
        writeTemplateAddr, writeString, readByte, List.append_assoc,
        readAddress_roundTrip t _ h.1.1, readTemplateAddr_roundTrip tpl _ h.1.2,
        readStringPanic_roundTrip f r h.2.2]

theorem encode_error_fields_shape (e : RuntimeError) (w : List Byte) :
    encode_error_fields e w = w ++ encode_error_fields e [] := by
  cases e <;>
    simp [encode_error_fields, writeByte, writeAddress, writeTemplateAddr, writeString,
      List.append_assoc]

theorem decode_error_roundTrip (e : RuntimeError) (logs : List ReceiptLog) (r : List Byte)
    (he : e.wf = true) (hl : logsWF logs = true) :
    decode_error (encode_error e logs [] ++ r) = some ((e, logs), r) := by
  rw [encode_error, encode_logs_shape, decode_error, List.append_assoc, List.append_assoc,
    decode_error_fields_roundTrip e _ he]
  simp [decode_logs_roundTrip logs r hl]

theorem encode_error_shape (e : RuntimeError) (logs : List ReceiptLog) (w : List Byte) :
    encode_error e logs w = w ++ encode_error e logs [] := by
  unfold encode_error
  rw [encode_logs_shape, encode_logs_shape, encode_error_fields_shape e w]
  simp [List.append_assoc]

theorem deploy_receipt_roundTrip (r : DeployReceipt) (h : r.wf = true)
    (h2 : r.success = true ∨ r.logs = []) :
    (encode_deploy r).bind decode_deploy = some r := by
  obtain ⟨version, success, error, addr, gas_used, logs⟩ := r
  cases success with
  | true =>
      simp only [DeployReceipt.wf, if_true, Bool.and_eq_true, decide_eq_true_eq,
        beq_iff_eq] at h
      obtain ⟨⟨⟨⟨h1, h2a⟩, h3⟩, h4⟩, h5⟩ := h
      obtain ⟨a, ha, hawf⟩ : ∃ a, addr = some a ∧ a.wf = true := by
        cases addr with
        | none => exact absurd h2a (by simp)
        | some a => exact ⟨a, rfl, h2a⟩
      subst h3
      subst ha
      have e1 : encode_deploy ⟨version, true, none, some a, gas_used, logs⟩ =
          some (0 :: (natToBytesBE 2 version ++ (1 :: (a.inner.bytes ++
            (natToBytesBE 8 gas_used ++ (natToBytesBE 2 logs.length ++
              ((logs.map (fun l => natToBytesBE 2 l.length ++ l)).flatten ++ []))))))) := by
        simp [encode_deploy, encode_logs_shape, encode_gas_used, writeTemplateAddr,
          writeBool, Svm.encode_version, writeBE, writeByte, types_DEPLOY, List.append_assoc]
      have h4a : gas_used < 256 ^ 8 := by
        have : (256 : Nat) ^ 8 = 2 ^ 64 := by norm_num
        rw [this]; exact h4
      rw [e1]
      simp only [Option.bind]
      simp only [decode_deploy, readByte, decode_version_roundTrip version _ h1,
        readTemplateAddr_roundTrip a _ hawf, decode_gas_used,
        readBE_roundTrip 8 gas_used _ h4a, decode_logs_roundTrip logs [] h5]
  | false =>
      have hlogs : logs = [] := by
        rcases h2 with h2 | h2
        · exact absurd h2 (by simp)
        · exact h2
      subst hlogs
      simp only [DeployReceipt.wf, Bool.false_eq_true, if_false, Bool.and_eq_true,
        decide_eq_true_eq, beq_iff_eq] at h
      obtain ⟨⟨⟨⟨h1, h2a⟩, h3⟩, h4⟩, h5⟩ := h
      obtain ⟨e, he, hewf⟩ : ∃ e, error = some e ∧ e.wf = true := by
        cases error with
        | none => exact absurd h4 (by simp)
        | some e => exact ⟨e, rfl, h4⟩
      subst h1
      subst h2a
      subst h3
      subst he
      have e1 : encode_deploy ⟨0, false, some e, none, Gas.new, []⟩ =
          some (0 :: (natToBytesBE 2 0 ++ (0 :: (encode_error e [] [] ++ [])))) := by
        simp only [encode_deploy]
        rw [encode_error_shape e []
          (writeBool false (Svm.encode_version 0 (writeByte types_DEPLOY [])))]
        simp [writeBool, Svm.encode_version, writeBE, writeByte, types_DEPLOY,
          List.append_assoc]
      have hde : decode_error (encode_error e [] [] ++ []) = some ((e, []), []) :=
        decode_error_roundTrip e [] [] hewf (by decide)
      rw [e1]
      simp only [Option.bind]
      simp only [decode_deploy, readByte, decode_version_roundTrip 0 _ (by decide), hde]
      rfl

theorem exceptBind_error {ε α β : Type} (e : ε) (f : α → Except ε β) :
    (Except.error e : Except ε α) >>= f = Except.error e := rfl

theorem decode_version_short (bs : List Byte) (h : bs.length < 2) :
    Svm.decode_version bs = .error (.NotEnoughBytes .Version) := by
  simp [Svm.decode_version, readBE_short 2 bs h]

theorem decode_target_short (bs : List Byte) (h : bs.length < 20) :
    call.decode_target bs = .error (.NotEnoughBytes .AccountAddr) := by
  simp [call.decode_target, readAddress, readN_short 20 bs h]

theorem decode_template_short (bs : List Byte) (h : bs.length < 20) :
    spawn.decode_template bs = .error (.NotEnoughBytes .Address) := by
  simp [spawn.decode_template, readTemplateAddr, readN_short 20 bs h]

theorem readString_nil : readString [] = none := rfl

theorem readString_short_data (n : Nat) (rest : List Byte) (h : rest.length < n) :
    readString (n :: rest) = none := by
  simp [readString, readByte, readN_short n rest h]

theorem decode_func_nil : call.decode_func [] = .error (.NotEnoughBytes .Function) := rfl

theorem decode_func_short_data (n : Nat) (rest : List Byte) (h : rest.length < n) :
    call.decode_func (n :: rest) = .error (.NotEnoughBytes .Function) := by
  unfold call.decode_func
  rw [readString_short_data n rest h]

theorem decode_func_badUtf8 (s rest : List Byte) (h : validUtf8 s = false) :
    call.decode_func (s.length :: (s ++ rest)) = .error (.InvalidUTF8String .Function) := by
  simp [call.decode_func, readString, readByte, readN_append, h]

theorem decode_name_nil : spawn.decode_name [] = .error (.NotEnoughBytes .Name) := rfl

theorem decode_name_short_data (n : Nat) (rest : List Byte) (h : rest.length < n) :
    spawn.decode_name (n :: rest) = .error (.NotEnoughBytes .Name) := by
  unfold spawn.decode_name
  rw [readString_short_data n rest h]

theorem decode_name_badUtf8 (s rest : List Byte) (h : validUtf8 s = false) :
    spawn.decode_name (s.length :: (s ++ rest)) = .error (.InvalidUTF8String .Name) := by
  simp [spawn.decode_name, readString, readByte, readN_append, h]

theorem decode_ctor_nil : spawn.decode_ctor [] = .error (.NotEnoughBytes .Ctor) := rfl

theorem decode_ctor_short_data (n : Nat) (rest : List Byte) (h : rest.length < n) :
    spawn.decode_ctor (n :: rest) = .error (.NotEnoughBytes .Ctor) := by
  unfold spawn.decode_ctor
  rw [readString_short_data n rest h]

theorem decode_inputdata_short_len (bs : List Byte) (h : bs.length < 2) :
    decode_inputdata bs = .error (.NotEnoughBytes .InputData) := by
  simp [decode_inputdata, readBE_short 2 bs h]

theorem decode_inputdata_short_data (n : Nat) (x : List Byte) (hn : n < 65536)
    (h : x.length < n) :
    decode_inputdata (natToBytesBE 2 n ++ x) = .error (.NotEnoughBytes .InputData) := by
  rw [decode_inputdata, readBE_roundTrip 2 n x (by simpa using hn)]
  simp [readN_short n x h]

theorem take_append_left_full {α : Type} (l r : List α) (k : Nat) (h : l.length ≤ k) :
    (l ++ r).take k = l ++ r.take (k - l.length) := by
  rw [List.take_append_eq_append_take, List.take_of_length_le h]

theorem take_append_right_none {α : Type} (l r : List α) (k : Nat) (h : k ≤ l.length) :
    (l ++ r).take k = l.take k := by
  rw [List.take_append_eq_append_take, Nat.sub_eq_zero_of_le h, List.take_zero,
    List.append_nil]

theorem encode_call_shape (tx : Transaction) :
    call.encode_call tx [] =
      natToBytesBE 2 tx.version ++ (tx.target.inner.bytes ++
        (tx.func_name.length :: (tx.func_name ++
          (natToBytesBE 2 tx.calldata.length ++ tx.calldata)))) := by
  simp [call.encode_call, call.encode_version, Svm.encode_version, call.encode_target,
    call.encode_func, call.encode_calldata, encode_inputdata, writeBE, writeAddress,
    writeString, writeBytes, List.append_assoc]

/-- The wire field that contains byte position `k` of an encoded `Call`
transaction: positions `0..1` hold the version, `2..21` the target address,
`22..22+len(func)` the function-name string (length byte included),
and the rest the calldata blob. -/
def callFieldAt (tx : Transaction) (k : Nat) : Field :=
  if k < 2 then .Version
  else if k < 22 then .AccountAddr
  else if k < 23 + tx.func_name.length then .Function
  else .InputData

theorem call_truncation (tx : Transaction) (k : Nat) (h : tx.wf = true)
    (hk : k < (call.encode_call tx []).length) :
    call.decode_call ((call.encode_call tx []).take k) =
      .error (.NotEnoughBytes (callFieldAt tx k)) := by
  simp only [Transaction.wf, Bool.and_eq_true, decide_eq_true_eq] at h
  obtain ⟨⟨⟨⟨⟨h1, h2⟩, h3⟩, h4⟩, h5⟩, h6⟩ := h
  have hA : (natToBytesBE 2 tx.version).length = 2 := natToBytesBE_length 2 _
  have hB : tx.target.inner.bytes.length = 20 := by
    simp only [AccountAddr.wf, Address.wf, Bool.and_eq_true, beq_iff_eq] at h2
    exact h2.1
  have hL : (natToBytesBE 2 tx.calldata.length).length = 2 := natToBytesBE_length 2 _
  have e := encode_call_shape tx
  have hlen : (call.encode_call tx []).length =
      25 + tx.func_name.length + tx.calldata.length := by
    rw [e]; simp [hA, hB, hL]; omega
  rw [hlen] at hk
  rw [e]
  rcases Nat.lt_or_ge k 2 with c1 | c1
  · rw [take_append_right_none _ _ k (by omega)]
    have hsh : ((natToBytesBE 2 tx.version).take k).length < 2 := by
      simp [List.length_take, hA]; omega
    simp only [call.decode_call, call.decode_version]
    rw [decode_version_short _ hsh, exceptBind_error]
    simp [callFieldAt, c1]
  · rw [take_append_left_full _ _ k (by omega), hA]
    rcases Nat.lt_or_ge k 22 with c2 | c2
    · rw [take_append_right_none _ _ (k - 2) (by omega)]
      have hsh : (tx.target.inner.bytes.take (k - 2)).length < 20 := by
        simp [List.length_take, hB]; omega
      simp only [call.decode_call, call.decode_version]
      rw [decode_version_roundTrip tx.version _ h1, exceptBind_ok,
        decode_target_short _ hsh, exceptBind_error]
      simp only [callFieldAt]
      rw [if_neg (by omega), if_pos (by omega)]
    · rw [take_append_left_full _ _ (k - 2) (by omega), hB]
      rcases Nat.lt_or_ge k 23 with c3 | c3
      · have h22 : k = 22 := by omega
        subst h22
        rw [show (22 - 2 - 20 : Nat) = 0 from rfl, List.take_zero]
        simp only [call.decode_call, call.decode_version]
        rw [decode_version_roundTrip tx.version _ h1, exceptBind_ok,
          decode_target_roundTrip tx.target _ (by
            simp [AccountAddr.wf, Address.wf] at h2 ⊢
            exact h2), exceptBind_ok]
        rw [decode_func_nil, exceptBind_error]
        simp only [callFieldAt]
        rw [if_neg (by omega), if_neg (by omega), if_pos (by omega)]
      · have htake : (tx.func_name.length :: (tx.func_name ++
            (natToBytesBE 2 tx.calldata.length ++ tx.calldata))).take (k - 2 - 20) =
            tx.func_name.length :: ((tx.func_name ++
              (natToBytesBE 2 tx.calldata.length ++ tx.calldata)).take (k - 23)) := by
          obtain ⟨m, hm⟩ : ∃ m, k - 2 - 20 = m + 1 := ⟨k - 23, by omega⟩
          rw [hm, List.take_succ_cons]
          have : k - 23 = m := by omega
          rw [this]
        rw [htake]
        have htarget : tx.target.wf = true := by
          simpa [AccountAddr.wf] using h2
        rcases Nat.lt_or_ge k (23 + tx.func_name.length) with c4 | c4
        · rw [take_append_right_none _ _ (k - 23) (by omega)]
          have hsh : (tx.func_name.take (k - 23)).length < tx.func_name.length := by
            simp [List.length_take]; omega
          simp only [call.decode_call, call.decode_version]
          rw [decode_version_roundTrip tx.version _ h1, exceptBind_ok,
            decode_target_roundTrip tx.target _ htarget, exceptBind_ok,
            decode_func_short_data _ _ hsh, exceptBind_error]
          simp only [callFieldAt]
          rw [if_neg (by omega), if_neg (by omega), if_pos (by omega)]
        · rw [take_append_left_full _ _ (k - 23) (by omega)]
          rcases Nat.lt_or_ge k (25 + tx.func_name.length) with c5 | c5
          · rw [take_append_right_none _ _ _ (by rw [hL]; omega)]
            have hsh : ((natToBytesBE 2 tx.calldata.length).take
                (k - 23 - tx.func_name.length)).length < 2 := by
              simp [List.length_take, hL]; omega
            simp only [call.decode_call, call.decode_version]
            rw [decode_version_roundTrip tx.version _ h1, exceptBind_ok,
              decode_target_roundTrip tx.target _ htarget, exceptBind_ok,
              decode_func_roundTrip tx.func_name _ h4, exceptBind_ok,
              decode_inputdata_short_len _ hsh, exceptBind_error]
            simp only [callFieldAt]
            rw [if_neg (by omega), if_neg (by omega), if_neg (by omega)]
          · rw [take_append_left_full _ _ _ (by rw [hL]; omega), hL]
            have hsh : (tx.calldata.take (k - 23 - tx.func_name.length - 2)).length <
                tx.calldata.length := by
              simp [List.length_take]; omega
            simp only [call.decode_call, call.decode_version]
            rw [decode_version_roundTrip tx.version _ h1, exceptBind_ok,
              decode_target_roundTrip tx.target _ htarget, exceptBind_ok,
              decode_func_roundTrip tx.func_name _ h4, exceptBind_ok,
              decode_inputdata_short_data tx.calldata.length _ h5 hsh, exceptBind_error]
            simp only [callFieldAt]
            rw [if_neg (by omega), if_neg (by omega), if_neg (by omega)]

theorem encode_spawn_shape (s : SpawnAccount) :
    spawn.encode s [] =
      natToBytesBE 2 s.version ++ (s.account.template_addr.inner.bytes ++
        (s.account.name.length :: (s.account.name ++
          (s.ctor_name.length :: (s.ctor_name ++
            (natToBytesBE 2 s.calldata.length ++ s.calldata)))))) := by
  simp [spawn.encode, spawn.encode_version, Svm.encode_version, spawn.encode_template,
    spawn.encode_name, spawn.encode_ctor, spawn.encode_ctor_calldata, encode_inputdata,
    writeBE, writeTemplateAddr, writeString, writeBytes, List.append_assoc]

/-- The wire field that contains byte position `k` of an encoded
`SpawnAccount`: version, template address, name string, ctor string, then the
calldata blob. -/
def spawnFieldAt (s : SpawnAccount) (k : Nat) : Field :=
  if k < 2 then .Version
  else if k < 22 then .Address
  else if k < 23 + s.account.name.length then .Name
  else if k < 24 + s.account.name.length + s.ctor_name.length then .Ctor
  else .InputData

theorem spawn_truncation (s : SpawnAccount) (k : Nat) (h : s.wf = true)
    (hk : k < (spawn.encode s []).length) :
    spawn.decode ((spawn.encode s []).take k) =
      .error (.NotEnoughBytes (spawnFieldAt s k)) := by
  simp only [SpawnAccount.wf, Bool.and_eq_true, decide_eq_true_eq] at h
  obtain ⟨⟨⟨⟨⟨⟨⟨h1, h2⟩, h3⟩, h4⟩, h5⟩, h6⟩, h7⟩, h8⟩ := h
  have hA : (natToBytesBE 2 s.version).length = 2 := natToBytesBE_length 2 _
  have hB : s.account.template_addr.inner.bytes.length = 20 := by
    simp only [TemplateAddr.wf, Address.wf, Bool.and_eq_true, beq_iff_eq] at h2
    exact h2.1
  have hL : (natToBytesBE 2 s.calldata.length).length = 2 := natToBytesBE_length 2 _
  have e := encode_spawn_shape s
  have hlen : (spawn.encode s []).length =
      26 + s.account.name.length + s.ctor_name.length + s.calldata.length := by
    rw [e]; simp [hA, hB, hL]; omega
  rw [hlen] at hk
  rw [e]
  rcases Nat.lt_or_ge k 2 with c1 | c1
  · rw [take_append_right_none _ _ k (by omega)]
    have hsh : ((natToBytesBE 2 s.version).take k).length < 2 := by
      simp [List.length_take, hA]; omega
    simp only [spawn.decode]
    rw [decode_version_short _ hsh, exceptBind_error]
    simp [spawnFieldAt, c1]
  · rw [take_append_left_full _ _ k (by omega), hA]
    rcases Nat.lt_or_ge k 22 with c2 | c2
    · rw [take_append_right_none _ _ (k - 2) (by omega)]
      have hsh : (s.account.template_addr.inner.bytes.take (k - 2)).length < 20 := by
        simp [List.length_take, hB]; omega
      simp only [spawn.decode]
      rw [decode_version_roundTrip s.version _ h1, exceptBind_ok,
        decode_template_short _ hsh, exceptBind_error]
      simp only [spawnFieldAt]
      rw [if_neg (by omega), if_pos (by omega)]
    · rw [take_append_left_full _ _ (k - 2) (by omega), hB]
      rcases Nat.lt_or_ge k 23 with c3 | c3
      · have h22 : k = 22 := by omega
        subst h22
        rw [show (22 - 2 - 20 : Nat) = 0 from rfl, List.take_zero]
        simp only [spawn.decode]
        rw [decode_version_roundTrip s.version _ h1, exceptBind_ok,
          decode_template_roundTrip s.account.template_addr _ h2, exceptBind_ok,
          decode_name_nil, exceptBind_error]
        simp only [spawnFieldAt]
        rw [if_neg (by omega), if_neg (by omega), if_pos (by omega)]
      · have htake : (s.account.name.length :: (s.account.name ++
            (s.ctor_name.length :: (s.ctor_name ++
              (natToBytesBE 2 s.calldata.length ++ s.calldata))))).take (k - 2 - 20) =
            s.account.name.length :: ((s.account.name ++
              (s.ctor_name.length :: (s.ctor_name ++
                (natToBytesBE 2 s.calldata.length ++ s.calldata)))).take (k - 23)) := by
          obtain ⟨m, hm⟩ : ∃ m, k - 2 - 20 = m + 1 := ⟨k - 23, by omega⟩
          rw [hm, List.take_succ_cons]
          have hmk : k - 23 = m := by omega
          rw [hmk]
        rw [htake]
        rcases Nat.lt_or_ge k (23 + s.account.name.length) with c4 | c4
        · rw [take_append_right_none _ _ (k - 23) (by omega)]
          have hsh : (s.account.name.take (k - 23)).length < s.account.name.length := by
            simp [List.length_take]; omega
          simp only [spawn.decode]
          rw [decode_version_roundTrip s.version _ h1, exceptBind_ok,
            decode_template_roundTrip s.account.template_addr _ h2, exceptBind_ok,
            decode_name_short_data _ _ hsh, exceptBind_error]
          simp only [spawnFieldAt]
          rw [if_neg (by omega), if_neg (by omega), if_pos (by omega)]
        · rw [take_append_left_full _ _ (k - 23) (by omega)]
          rcases Nat.lt_or_ge k (24 + s.account.name.length) with c5 | c5
          · have hz : k - 23 - s.account.name.length = 0 := by omega
            rw [hz, List.take_zero]
            simp only [spawn.decode]
            rw [decode_version_roundTrip s.version _ h1, exceptBind_ok,
              decode_template_roundTrip s.account.template_addr _ h2, exceptBind_ok,
              decode_name_roundTrip s.account.name _ h4, exceptBind_ok,
              decode_ctor_nil, exceptBind_error]
            simp only [spawnFieldAt]
            rw [if_neg (by omega), if_neg (by omega), if_neg (by omega), if_pos (by omega)]
          · have htake2 : (s.ctor_name.length :: (s.ctor_name ++
                (natToBytesBE 2 s.calldata.length ++ s.calldata))).take
                  (k - 23 - s.account.name.length) =
                s.ctor_name.length :: ((s.ctor_name ++
                  (natToBytesBE 2 s.calldata.length ++ s.calldata)).take
                    (k - 24 - s.account.name.length)) := by
              obtain ⟨m, hm⟩ : ∃ m, k - 23 - s.account.name.length = m + 1 :=
                ⟨k - 24 - s.account.name.length, by omega⟩
              rw [hm, List.take_succ_cons]
              have hmk : k - 24 - s.account.name.length = m := by omega
              rw [hmk]
            rw [htake2]
            rcases Nat.lt_or_ge k (24 + s.account.name.length + s.ctor_name.length)
              with c6 | c6
            · rw [take_append_right_none _ _ _ (by omega)]
              have hsh : (s.ctor_name.take (k - 24 - s.account.name.length)).length <
                  s.ctor_name.length := by
                simp [List.length_take]; omega
              simp only [spawn.decode]
              rw [decode_version_roundTrip s.version _ h1, exceptBind_ok,
                decode_template_roundTrip s.account.template_addr _ h2, exceptBind_ok,
                decode_name_roundTrip s.account.name _ h4, exceptBind_ok,
                decode_ctor_short_data _ _ hsh, exceptBind_error]
              simp only [spawnFieldAt]
              rw [if_neg (by omega), if_neg (by omega), if_neg (by omega),
                if_pos (by omega)]
            · rw [take_append_left_full _ _ _ (by omega)]
              rcases Nat.lt_or_ge k (26 + s.account.name.length + s.ctor_name.length)
                with c7 | c7
              · rw [take_append_right_none _ _ _ (by rw [hL]; omega)]
                have hsh : ((natToBytesBE 2 s.calldata.length).take
                    (k - 24 - s.account.name.length - s.ctor_name.length)).length < 2 := by
                  simp [List.length_take, hL]; omega
                simp only [spawn.decode]
                rw [decode_version_roundTrip s.version _ h1, exceptBind_ok,
                  decode_template_roundTrip s.account.template_addr _ h2, exceptBind_ok,
                  decode_name_roundTrip s.account.name _ h4, exceptBind_ok,
                  decode_ctor_roundTrip s.ctor_name _ h6, exceptBind_ok,
                  decode_inputdata_short_len _ hsh, exceptBind_error]
                simp only [spawnFieldAt]
                rw [if_neg (by omega), if_neg (by omega), if_neg (by omega),
                  if_neg (by omega)]
              · rw [take_append_left_full _ _ _ (by rw [hL]; omega), hL]
                have hsh : (s.calldata.take
                    (k - 24 - s.account.name.length - s.ctor_name.length - 2)).length <
                    s.calldata.length := by
                  simp [List.length_take]; omega
                simp only [spawn.decode]
                rw [decode_version_roundTrip s.version _ h1, exceptBind_ok,
                  decode_template_roundTrip s.account.template_addr _ h2, exceptBind_ok,
                  decode_name_roundTrip s.account.name _ h4, exceptBind_ok,
                  decode_ctor_roundTrip s.ctor_name _ h6, exceptBind_ok,
                  decode_inputdata_short_data s.calldata.length _ h7 hsh, exceptBind_error]
                simp only [spawnFieldAt]
                rw [if_neg (by omega), if_neg (by omega), if_neg (by omega),
                  if_neg (by omega)]

theorem call_badUtf8 (v : Nat) (a : AccountAddr) (f rest : List Byte) (h1 : v < 65536)
    (h2 : a.wf = true) (h : validUtf8 f = false) :
    call.decode_call (natToBytesBE 2 v ++ (a.inner.bytes ++ (f.length :: (f ++ rest)))) =
      .error (.InvalidUTF8String .Function) := by
  simp only [call.decode_call, call.decode_version]
  rw [decode_version_roundTrip v _ h1, exceptBind_ok, decode_target_roundTrip a _ h2,
    exceptBind_ok, decode_func_badUtf8 f rest h, exceptBind_error]

theorem spawn_badUtf8Name (v : Nat) (a : TemplateAddr) (n rest : List Byte) (h1 : v < 65536)
    (h2 : a.wf = true) (h : validUtf8 n = false) :
    spawn.decode (natToBytesBE 2 v ++ (a.inner.bytes ++ (n.length :: (n ++ rest)))) =
      .error (.InvalidUTF8String .Name) := by
  simp only [spawn.decode]
  rw [decode_version_roundTrip v _ h1, exceptBind_ok, decode_template_roundTrip a _ h2,
    exceptBind_ok, decode_name_badUtf8 n rest h, exceptBind_error]

/-- A concrete well-formed `Call` transaction (target address `0x07…07`,
function name `"do_work"`, a 3-byte calldata). -/
def txW : Transaction :=
  { version := 0, target := ⟨⟨List.replicate 20 7⟩⟩,
    func_name := [100, 111, 95, 119, 111, 114, 107], calldata := [16, 0, 48] }

/-- A concrete well-formed `SpawnAccount` (name `"@a"`, ctor `"init"`). -/
def spawnW : SpawnAccount :=
  { version := 0, account := { name := [64, 97], template_addr := ⟨⟨List.replicate 20 9⟩⟩ },
    ctor_name := [105, 110, 105, 116], calldata := [16, 32, 48] }

/-- A concrete successful `DeployReceipt`. -/
def deployReceiptW : DeployReceipt :=
  DeployReceipt.new ⟨⟨List.replicate 20 171⟩⟩ (Gas.withAmount 100)

/-- A failed `DeployReceipt` carrying one non-empty log entry. -/
def failedLogsReceipt : DeployReceipt := DeployReceipt.from_err .OOG [[1]]

/-- Claim C1 (counterexample): the claim's round-trip law fails for failed deploy
receipts with non-empty logs. `encode_deploy` encodes a fresh empty logs
vector on the failure path, so decoding the encoding of a failed `OOG`
receipt with one log entry returns the same receipt with its logs dropped —
not the original receipt. -/
theorem c1_roundTrip_counterexample :
    failedLogsReceipt.wf = true ∧ failedLogsReceipt.success = false ∧
      failedLogsReceipt.logs ≠ [] ∧
      (encode_deploy failedLogsReceipt).bind decode_deploy =
        some (DeployReceipt.from_err .OOG []) ∧
      (encode_deploy failedLogsReceipt).bind decode_deploy ≠ some failedLogsReceipt := by
  refine ⟨by decide, rfl, by decide, by decide, by decide⟩

/-- Claim C1 (amended): codec round-trip. Decoding the encoding of a
well-formed `Call` transaction or `SpawnAccount` returns it exactly, and
decoding the encoding of a well-formed `DeployReceipt` returns it exactly
whenever the receipt is successful or carries no logs; a failed receipt's
logs are dropped by `encode_deploy`, so the law holds for failed receipts
only when their logs are empty. -/
theorem c1_codec_roundTrip :
    (∀ tx : Transaction, tx.wf = true →
        call.decode_call (call.encode_call tx []) = .ok (tx, []))
    ∧ (∀ s : SpawnAccount, s.wf = true →
        spawn.decode (spawn.encode s []) = .ok (s, []))
    ∧ (∀ r : DeployReceipt, r.wf = true → (r.success = true ∨ r.logs = []) →
        (encode_deploy r).bind decode_deploy = some r) :=
  ⟨call_roundTrip, spawn_roundTrip, deploy_receipt_roundTrip⟩

/-- Witness for C1: the round-trip evaluated on a concrete transaction,
spawn message, and successful deploy receipt. -/
theorem c1_codec_roundTrip_witness :
    (txW.wf = true ∧ call.decode_call (call.encode_call txW []) = .ok (txW, []))
    ∧ (spawnW.wf = true ∧ spawn.decode (spawn.encode spawnW []) = .ok (spawnW, []))
    ∧ (deployReceiptW.wf = true ∧
        (encode_deploy deployReceiptW).bind decode_deploy = some deployReceiptW) :=
  ⟨⟨by decide, c1_codec_roundTrip.1 txW (by decide)⟩,
   ⟨by decide, c1_codec_roundTrip.2.1 spawnW (by decide)⟩,
   ⟨by decide, c1_codec_roundTrip.2.2 deployReceiptW (by decide) (Or.inl rfl)⟩⟩

/-- Claim C7: codec failure conditions. Truncating a well-formed encoded `Call`
or `SpawnAccount` at any position `k` makes decoding fail with
`NotEnoughBytes` naming exactly the field that contains position `k`; an
invalid-UTF-8 string field fails with `InvalidUTF8String` naming that field.
(The decoders return `Except` values, so an error case never yields a
partially-built transaction.) -/
theorem c7_codec_failure_conditions :
    (∀ (tx : Transaction) (k : Nat), tx.wf = true → k < (call.encode_call tx []).length →
        call.decode_call ((call.encode_call tx []).take k) =
          .error (.NotEnoughBytes (callFieldAt tx k)))
    ∧ (∀ (s : SpawnAccount) (k : Nat), s.wf = true → k < (spawn.encode s []).length →
        spawn.decode ((spawn.encode s []).take k) =
          .error (.NotEnoughBytes (spawnFieldAt s k)))
    ∧ (∀ (v : Nat) (a : AccountAddr) (f rest : List Byte), v < 65536 → a.wf = true →
        validUtf8 f = false →
        call.decode_call (natToBytesBE 2 v ++ (a.inner.bytes ++ (f.length :: (f ++ rest)))) =
          .error (.InvalidUTF8String .Function))
    ∧ (∀ (v : Nat) (a : TemplateAddr) (n rest : List Byte), v < 65536 → a.wf = true →
        validUtf8 n = false →
        spawn.decode (natToBytesBE 2 v ++ (a.inner.bytes ++ (n.length :: (n ++ rest)))) =
          .error (.InvalidUTF8String .Name)) :=
  ⟨call_truncation, spawn_truncation, call_badUtf8, spawn_badUtf8Name⟩

/-- Witness for C7: a truncated `Call` fails inside the target address, a
truncated `Spawn` inside the name, and a `0xFF` byte makes a string field an
invalid-UTF-8 error. -/
theorem c7_codec_failure_conditions_witness :
    (txW.wf = true ∧ 3 < (call.encode_call txW []).length ∧
      call.decode_call ((call.encode_call txW []).take 3) =
        .error (.NotEnoughBytes (callFieldAt txW 3)))
    ∧ (spawnW.wf = true ∧ 24 < (spawn.encode spawnW []).length ∧
      spawn.decode ((spawn.encode spawnW []).take 24) =
        .error (.NotEnoughBytes (spawnFieldAt spawnW 24)))
    ∧ call.decode_call (natToBytesBE 2 0 ++ ((List.replicate 20 7) ++
        ([255].length :: ([255] ++ [])))) = .error (.InvalidUTF8String .Function)
    ∧ spawn.decode (natToBytesBE 2 0 ++ ((List.replicate 20 9) ++
        ([255].length :: ([255] ++ [])))) = .error (.InvalidUTF8String .Name) :=
  ⟨⟨by decide, by decide, c7_codec_failure_conditions.1 txW 3 (by decide) (by decide)⟩,
   ⟨by decide, by decide, c7_codec_failure_conditions.2.1 spawnW 24 (by decide) (by decide)⟩,
   c7_codec_failure_conditions.2.2.1 0 ⟨⟨List.replicate 20 7⟩⟩ [255] [] (by decide)
     (by decide) (by decide),
   c7_codec_failure_conditions.2.2.2 0 ⟨⟨List.replicate 20 9⟩⟩ [255] [] (by decide)
     (by decide) (by decide)⟩

/-- The seven recognized section kinds (`svm-types`' `SectionKind`, missing
from the sources; the variants are those matched in `section/encode.rs`). -/
inductive SectionKind where
  | Api | Header | Code | Data | Ctors | Schema | Deploy
  deriving DecidableEq, Fintype

/-- Modelled from the spec: the `kind:u8` discriminant of a section preview
(the preview codec is missing from the sources; only injectivity and
one-byte width matter here). -/
def SectionKind.byteValue : SectionKind → Byte
  | .Api => 0
  | .Header => 1
  | .Code => 2
  | .Data => 3
  | .Ctors => 4
  | .Schema => 5
  | .Deploy => 6

/-- A section to be encoded: its kind together with the bytes its
`SectionEncoder` appends (`encoder.encode(buf)` in `encode_section`; the
per-kind body encoders are external to the envelope layout). -/
structure Section where
  kind : SectionKind
  body : List Byte
  deriving DecidableEq

/-- Source `SectionsEncoder` (`section/encode.rs`): `section_buf` is an
insertion-ordered map (`IndexMap`) from a section kind to that kind's
accumulated body bytes. -/
structure SectionsEncoder where
  section_buf : List (SectionKind × List Byte)
  deriving DecidableEq

/-- Source `SectionsEncoder::default` — an empty buffer. -/
def SectionsEncoder.default : SectionsEncoder := ⟨[]⟩

/-- Source `encode_section` / `section_buf_mut`: fetch-or-insert the kind's buffer
and append the section's bytes to it (an `IndexMap` keeps the first-insertion
order, so an existing key keeps its position). -/
def section_buf_insert :
    List (SectionKind × List Byte) → SectionKind → List Byte → List (SectionKind × List Byte)
  | [], k, b => [(k, b)]
  | (k0, v) :: rest, k, b =>
    if k0 = k then (k0, v ++ b) :: rest else (k0, v) :: section_buf_insert rest k b

/-- Source `SectionsEncoder::encode`: encodes each section into its kind's buffer. -/
def SectionsEncoder.encode (e : SectionsEncoder) (sections : List Section) : SectionsEncoder :=
  ⟨sections.foldl (fun m s => section_buf_insert m s.kind s.body) e.section_buf⟩

/-- Source `SectionsEncoder::finish`: asserts `section_count < u16::MAX` and each
buffer's `byte_size < u32::MAX` (strict, per the source's `assert!`s; a
failing assert is a panic, modelled as `none`), then writes the section
count and, per entry, the preview (`kind:u8 ‖ byte_size:u32`) immediately
followed by that entry's payload. -/
def SectionsEncoder.finish (e : SectionsEncoder) : Option (List Byte) :=
  if e.section_buf.length < 65535 then
    if e.section_buf.all (fun p => decide (p.2.length < 4294967295)) then
      some (natToBytesBE 2 e.section_buf.length ++
        (e.section_buf.map
          (fun p => p.1.byteValue :: (natToBytesBE 4 p.2.length ++ p.2))).flatten)
    else none
  else none

/-- The wire layout the spec claims for the envelope:
`section_count ‖ [preview₁…previewₙ] ‖ [payload₁…payloadₙ]` — all previews
first, then all payloads. Stated from the spec's words for comparison with
`SectionsEncoder.finish`. -/
def specSectionsLayout (m : List (SectionKind × List Byte)) : List Byte :=
  natToBytesBE 2 m.length ++
    (m.map (fun p => p.1.byteValue :: natToBytesBE 4 p.2.length)).flatten ++
    (m.map (fun p => p.2)).flatten

theorem section_buf_insert_bodyLength (m : List (SectionKind × List Byte))
    (k : SectionKind) (b : List Byte) :
    ((section_buf_insert m k b).map (fun p => p.2.length)).sum =
      (m.map (fun p => p.2.length)).sum + b.length := by
  induction m with
  | nil => simp [section_buf_insert]
  | cons p rest ih =>
      obtain ⟨k0, v⟩ := p
      by_cases hk : k0 = k
      · simp [section_buf_insert, hk]
        omega
      · simp [section_buf_insert, hk, ih]
        omega

theorem sections_encode_bodyLength (sections : List Section)
    (m : List (SectionKind × List Byte)) :
    ((sections.foldl (fun m s => section_buf_insert m s.kind s.body) m).map
        (fun p => p.2.length)).sum =
      (m.map (fun p => p.2.length)).sum + (sections.map (fun s => s.body.length)).sum := by
  induction sections generalizing m with
  | nil => simp
  | cons s rest ih =>
      rw [List.foldl_cons, ih, section_buf_insert_bodyLength]
      simp
      omega

theorem section_buf_insert_keys_mem (m : List (SectionKind × List Byte))
    (k x : SectionKind) (b : List Byte)
    (hx : x ∈ (section_buf_insert m k b).map Prod.fst) :
    x ∈ m.map Prod.fst ∨ x = k := by
  induction m with
  | nil =>
      simp only [section_buf_insert, List.map_cons, List.map_nil,
        List.mem_singleton] at hx
      exact Or.inr hx
  | cons p rest ih =>
      obtain ⟨k0, v⟩ := p
      simp only [section_buf_insert] at hx
      by_cases hk : k0 = k
      · rw [if_pos hk] at hx
        simp only [List.map_cons, List.mem_cons] at hx
        rw [List.map_cons, List.mem_cons]
        rcases hx with hx | hx
        · exact Or.inl (Or.inl hx)
        · exact Or.inl (Or.inr hx)
      · rw [if_neg hk] at hx
        simp only [List.map_cons, List.mem_cons] at hx
        rw [List.map_cons, List.mem_cons]
        rcases hx with hx | hx
        · exact Or.inl (Or.inl hx)
        · rcases ih hx with h | h
          · exact Or.inl (Or.inr h)
          · exact Or.inr h

theorem section_buf_insert_keys_nodup (m : List (SectionKind × List Byte))
    (k : SectionKind) (b : List Byte) (h : (m.map Prod.fst).Nodup) :
    ((section_buf_insert m k b).map Prod.fst).Nodup := by
  induction m with
  | nil =>
      simp only [section_buf_insert, List.map_cons, List.map_nil]
      exact List.nodup_singleton k
  | cons p rest ih =>
      obtain ⟨k0, v⟩ := p
      rw [List.map_cons, List.nodup_cons] at h
      simp only [section_buf_insert]
      by_cases hk : k0 = k
      · rw [if_pos hk, List.map_cons, List.nodup_cons]
        exact h
      · rw [if_neg hk, List.map_cons, List.nodup_cons]
        refine ⟨?_, ih h.2⟩
        intro hmem
        rcases section_buf_insert_keys_mem rest k k0 b hmem with hc | hc
        · exact h.1 hc
        · exact hk hc

theorem sections_encode_keys_nodup (sections : List Section)
    (m : List (SectionKind × List Byte)) (h : (m.map Prod.fst).Nodup) :
    (((sections.foldl (fun m s => section_buf_insert m s.kind s.body) m)).map
        Prod.fst).Nodup := by
  induction sections generalizing m with
  | nil => exact h
  | cons s rest ih =>
      rw [List.foldl_cons]
      exact ih _ (section_buf_insert_keys_nodup m s.kind s.body h)

theorem sections_encode_length_le (sections : List Section) :
    ((SectionsEncoder.default.encode sections).section_buf).length ≤ 7 := by
  have hnd := sections_encode_keys_nodup sections [] (by simp)
  have hcard := List.Nodup.length_le_card hnd
  simp only [List.length_map] at hcard
  have : Fintype.card SectionKind = 7 := by decide
  rw [this] at hcard
  exact hcard

/-- Two one-byte sections of distinct kinds. -/
def sectionsC3 : List Section := [⟨.Code, [170]⟩, ⟨.Data, [187]⟩]

/-- Three sections exercising the kind-merging of the encoder. -/
def sectionsW4 : List Section := [⟨.Code, [1, 2]⟩, ⟨.Ctors, [3]⟩, ⟨.Code, [4]⟩]

/-- Claim C3 (counterexample): the envelope layout claimed by the spec — all
previews first, then all payloads — does not match `finish`, which writes
each preview immediately followed by its own payload. With two one-byte
sections the first payload byte `170` sits between the two previews. -/
theorem c3_envelope_layout_counterexample :
    (SectionsEncoder.default.encode sectionsC3).finish =
        some [0, 2, 2, 0, 0, 0, 1, 170, 3, 0, 0, 0, 1, 187] ∧
      specSectionsLayout (SectionsEncoder.default.encode sectionsC3).section_buf =
        [0, 2, 2, 0, 0, 0, 1, 3, 0, 0, 0, 1, 170, 187] ∧
      (SectionsEncoder.default.encode sectionsC3).finish ≠
        some (specSectionsLayout (SectionsEncoder.default.encode sectionsC3).section_buf) := by
  refine ⟨by decide, by decide, by decide⟩

/-- Claim C3 (amended): envelope wire layout. `finish` emits the two-byte
big-endian section count followed, for each of the N merged sections in
order, by its preview (`kind:u8 ‖ byte_size:u32`) immediately followed by
that section's payload (so previews and payloads interleave, rather than all
previews preceding all payloads); each preview's byte_size equals its
payload's length, hence the sum of preview byte-sizes equals the total
payload length, which also equals the sum of the input sections' body
lengths. -/
theorem c3_envelope_layout :
    ∀ (sections : List Section) (out : List Byte),
      (SectionsEncoder.default.encode sections).finish = some out →
      (out = natToBytesBE 2 (SectionsEncoder.default.encode sections).section_buf.length ++
        ((SectionsEncoder.default.encode sections).section_buf.map
          (fun p => p.1.byteValue :: (natToBytesBE 4 p.2.length ++ p.2))).flatten
      ∧ ((SectionsEncoder.default.encode sections).section_buf.map
          (fun p => p.2.length)).sum =
        (((SectionsEncoder.default.encode sections).section_buf.map
          (fun p => p.2)).flatten).length
      ∧ ((SectionsEncoder.default.encode sections).section_buf.map
          (fun p => p.2.length)).sum = (sections.map (fun s => s.body.length)).sum) := by
  intro sections out hout
  refine ⟨?_, ?_, ?_⟩
  · unfold SectionsEncoder.finish at hout
    split_ifs at hout with h1 h2
    · exact (Option.some.inj hout).symm
  · rw [List.length_flatten, List.map_map]
    rfl
  · simpa using sections_encode_bodyLength sections []

/-- Witness for C3: the layout equation evaluated on the two-section input. -/
theorem c3_envelope_layout_witness :
    (SectionsEncoder.default.encode sectionsC3).finish =
        some [0, 2, 2, 0, 0, 0, 1, 170, 3, 0, 0, 0, 1, 187] ∧
      ([0, 2, 2, 0, 0, 0, 1, 170, 3, 0, 0, 0, 1, 187] =
        natToBytesBE 2 (SectionsEncoder.default.encode sectionsC3).section_buf.length ++
          ((SectionsEncoder.default.encode sectionsC3).section_buf.map
            (fun p => p.1.byteValue :: (natToBytesBE 4 p.2.length ++ p.2))).flatten
      ∧ ((SectionsEncoder.default.encode sectionsC3).section_buf.map
          (fun p => p.2.length)).sum =
        (((SectionsEncoder.default.encode sectionsC3).section_buf.map
          (fun p => p.2)).flatten).length
      ∧ ((SectionsEncoder.default.encode sectionsC3).section_buf.map
          (fun p => p.2.length)).sum = (sectionsC3.map (fun s => s.body.length)).sum) :=
  ⟨by decide,
   c3_envelope_layout sectionsC3 [0, 2, 2, 0, 0, 0, 1, 170, 3, 0, 0, 0, 1, 187] (by decide)⟩

/-- Claim C4: `finish` succeeds (no panic) for every collection of sections
whose merged per-kind buffers satisfy the `byte_size` assert: the merged
section count is bounded by the 7 section kinds, far below the strict
`section_count < u16::MAX` assert, so in particular every collection of up
to 65535 distinct sections encodes. -/
theorem c4_finish_succeeds :
    ∀ sections : List Section,
      ((SectionsEncoder.default.encode sections).section_buf.all
        (fun p => decide (p.2.length < 4294967295))) = true →
      ((SectionsEncoder.default.encode sections).section_buf.length ≤ 7 ∧
        ∃ out, (SectionsEncoder.default.encode sections).finish = some out) := by
  intro sections hall
  refine ⟨sections_encode_length_le sections, ?_⟩
  unfold SectionsEncoder.finish
  rw [if_pos (by have := sections_encode_length_le sections; omega), if_pos hall]
  exact ⟨_, rfl⟩

/-- Witness for C4: a three-section collection (with two sections of the same
kind, exercising the merge) encodes. -/
theorem c4_finish_succeeds_witness :
    ((SectionsEncoder.default.encode sectionsW4).section_buf.all
        (fun p => decide (p.2.length < 4294967295))) = true ∧
      ((SectionsEncoder.default.encode sectionsW4).section_buf.length ≤ 7 ∧
        ∃ out, (SectionsEncoder.default.encode sectionsW4).finish = some out) :=
  ⟨by decide, c4_finish_succeeds sectionsW4 (by decide)⟩

/-- A fixed-layout storage variable (`svm-layout`'s `RawVar`, constructed as
`RawVar::new(id, offset, byte_size)` in the source's tests; `fixed.rs` is
among the sources, the `RawVar` definition itself is not). Variable ids are
`Id(u32)` values, modelled as naturals. -/
structure RawVar where
  id : Nat
  offset : Nat
  byte_size : Nat
  deriving DecidableEq

/-- Source `FixedLayout` (`layout/fixed.rs`): the optional first variable id and the
ordered list of variables. -/
structure FixedLayout where
  first : Option Nat
  vars : List RawVar
  deriving DecidableEq

/-- Source `FixedLayout::new`: an empty `vars` gives the default (empty) layout,
otherwise `first` is the first variable's id. -/
def FixedLayout.new (vars : List RawVar) : FixedLayout :=
  if vars.isEmpty then ⟨none, []⟩
  else ⟨(vars.get? 0).map (fun v => v.id), vars⟩

/-- Source `FixedLayout::try_first` — returns `self.first` without unwrapping. -/
def FixedLayout.try_first (l : FixedLayout) : Option Nat := l.first

/-- Source `FixedLayout::var_index`: `self.first()` unwraps `first` (panic on the
empty layout, modelled as `none`); then `assert!(id >= first)` and
`assert!(index < vars.len())` (failing asserts are panics, `none`). -/
def FixedLayout.var_index (l : FixedLayout) (id : Nat) : Option Nat :=
  match l.first with
  | none => none
  | some f =>
    if id ≥ f then
      if id - f < l.vars.length then some (id - f) else none
    else none

/-- Source `FixedLayout::try_get`: `var_index` (which can panic — the outer
`Option`), then `self.vars.get(index)` (the inner `Option` it returns). -/
def FixedLayout.try_get (l : FixedLayout) (id : Nat) : Option (Option RawVar) :=
  (l.var_index id).map (fun index => l.vars.get? index)

/-- Source `FixedLayout::get`: `var_index`, then the panicking index
`&self.vars[index]`. -/
def FixedLayout.get (l : FixedLayout) (id : Nat) : Option RawVar :=
  (l.var_index id).bind (fun index => l.vars.get? index)

/-- Claim C10: `try_get` never returns an inner `None` — when `var_index`
survives its asserts the index is in bounds, so the `Option` it was built to
return is always `Some`; for an id outside the declared range of a non-empty
layout, `var_index` (and hence `try_get` and `get`) panics; and on the empty
layout every lookup panics on unwrapping the absent first id. -/
theorem c10_layout_lookup_panics :
    (∀ (l : FixedLayout) (id : Nat), l.try_get id ≠ some none)
    ∧ (∀ (v0 : RawVar) (rest : List RawVar) (id : Nat),
        id < v0.id ∨ v0.id + (v0 :: rest).length ≤ id →
        (FixedLayout.new (v0 :: rest)).var_index id = none ∧
          (FixedLayout.new (v0 :: rest)).try_get id = none ∧
          (FixedLayout.new (v0 :: rest)).get id = none)
    ∧ (∀ id : Nat, (FixedLayout.new []).try_get id = none ∧
        (FixedLayout.new []).get id = none ∧ (FixedLayout.new []).try_first = none) := by
  refine ⟨?_, ?_, ?_⟩
  · intro l id
    unfold FixedLayout.try_get FixedLayout.var_index
    cases hf : l.first with
    | none => simp
    | some f =>
        by_cases h1 : id ≥ f
        · by_cases h2 : id - f < l.vars.length
          · simp only [h1, if_true, h2, Option.map_some]
            intro hc
            have hget := Option.some.inj hc
            rw [List.get?_eq_none] at hget
            omega
          · simp [h1, h2]
        · simp [h1]
  · intro v0 rest id hid
    have hnew : FixedLayout.new (v0 :: rest) = ⟨some v0.id, v0 :: rest⟩ := by
      simp [FixedLayout.new]
    have hcompute : FixedLayout.var_index ⟨some v0.id, v0 :: rest⟩ id =
        if id ≥ v0.id then
          (if id - v0.id < (v0 :: rest).length then some (id - v0.id) else none)
        else none := rfl
    have hvi : (FixedLayout.new (v0 :: rest)).var_index id = none := by
      rw [hnew, hcompute]
      rcases hid with hid | hid
      · rw [if_neg (by omega)]
      · rw [if_pos (by omega), if_neg (by simp only [List.length_cons] at hid ⊢; omega)]
    refine ⟨hvi, ?_, ?_⟩
    · unfold FixedLayout.try_get
      rw [hvi]
      rfl
    · unfold FixedLayout.get
      rw [hvi]
      rfl
  · intro id
    exact ⟨rfl, rfl, rfl⟩

/-- Witness for C10: the two-variable layout of the source's `layout_new`
test, probed inside and outside its range, and the empty layout. -/
theorem c10_layout_lookup_panics_witness :
    (FixedLayout.new [⟨3, 0, 10⟩, ⟨4, 10, 20⟩]).try_get 4 ≠ some none ∧
      ((2 : Nat) < (3 : Nat) ∨ 3 + ([⟨3, 0, 10⟩, ⟨4, 10, 20⟩] : List RawVar).length ≤ 2) ∧
      (FixedLayout.new [⟨3, 0, 10⟩, ⟨4, 10, 20⟩]).var_index 2 = none ∧
      (FixedLayout.new []).try_get 0 = none :=
  ⟨c10_layout_lookup_panics.1 (FixedLayout.new [⟨3, 0, 10⟩, ⟨4, 10, 20⟩]) 4,
   Or.inl (by decide),
   (c10_layout_lookup_panics.2.1 ⟨3, 0, 10⟩ [⟨4, 10, 20⟩] 2 (Or.inl (by decide))).1,
   (c10_layout_lookup_panics.2.2 0).1⟩

/-- Modelled from the spec: `ProtectedMode` — the per-execution storage-access flag (§4.5; its two
values and uses are those of `runtime/default.rs`). -/
inductive ProtectedMode where
  | FullAccess | AccessDenied
  deriving DecidableEq

/-- Modelled from the spec: `Failure` — a `RuntimeError` plus the logs collected up to the failure
(`Failure::new(err, logs)`; the type itself is missing from the sources,
its fields are those used by `default.rs`). -/
structure Failure where
  err : RuntimeError
  logs : List ReceiptLog
  deriving DecidableEq

/-- Modelled from the spec: `impl From<RuntimeError> for Failure` (the source's `.into()` calls
attach no logs). -/
def Failure.ofError (e : RuntimeError) : Failure := ⟨e, []⟩

/-- Modelled from the spec: `Outcome` — returned values, gas used and logs
(`Outcome::new(returns, gas_used, logs)`). -/
structure Outcome (α : Type) where
  returns : α
  gas_used : Gas
  logs : List ReceiptLog
  deriving DecidableEq

/-- Modelled from the spec: `GasMode` (§3): `Fixed` or `Metering`. -/
inductive GasMode where
  | Fixed | Metering
  deriving DecidableEq

/-- The `Code` section data used by the runtime (`svm-types` missing from the
sources; fields per §3). -/
structure CodeSection where
  code : List Byte
  gas_mode : GasMode

/-- Modelled from the spec: `Template` as the runtime consumes it (`svm-types` missing; §3): the code
section, the declared constructor names (UTF-8 bytes), and the `Data`
section's fixed layout. -/
structure Template where
  code_section : CodeSection
  ctors : List (List Byte)
  fixed_layout : FixedLayout

/-- Modelled from the spec: `Template::is_ctor`. -/
def Template.is_ctor (t : Template) (f : List Byte) : Bool := t.ctors.contains f

/-- A 32-byte storage-state commitment (§3; `svm-types` missing). -/
structure State where
  bytes : List Byte
  deriving DecidableEq

/-- Modelled from the spec: `State::zeros`. -/
def State.zeros : State := ⟨List.replicate 32 0⟩

/-- Modelled from the spec: `Envelope` (Glossary): per-transaction metadata. `gas_limit` is modelled
from the spec as the numeric gas budget. -/
structure Envelope where
  principal : Address
  gas_limit : Nat

/-- Modelled from the spec: `Context` (Glossary): per-transaction chain inputs. -/
structure Context where
  state : State

/-- Modelled from the spec: `Call` — the argument record of the shared execution pipeline
(`runtime/mod.rs` is missing from the sources; the fields are exactly those
built and consumed in `default.rs`). -/
structure Call where
  func_name : List Byte
  func_input : List Byte
  state : State
  template : TemplateAddr
  target : Address
  within_spawn : Bool
  gas_limit : Nat
  protected_mode : ProtectedMode

/-- The observable behavior of one instantiated Wasm module: exported
function lookup (`exports.get_function`), native-signature check
(`func.native`), invocation outcome (collected logs and either a trap
message or returned values), the exported `memory` and its size, and the
returndata window the guest may set. The Wasm engine is an abstract
collaborator (spec §1 non-goals), so these are the embedding's parameters. -/
structure WasmInstance where
  hasFunc : List Byte → Bool
  sigOk : List Byte → Bool
  invoke : List Byte → List ReceiptLog × Except (List Byte) (List Int)
  hasMemory : Bool
  memSize : Nat
  allocSetsReturndata : Bool
  returndata : Option (List Byte)

/-- The engine-side outcomes of one execution: compilation
(`Module::from_binary`) and instantiation (`Instance::new`) results, and the
`State` the storage commit returns. -/
structure WasmWorld where
  compile : Except (List Byte) Unit
  instantiate : Except (List Byte) WasmInstance
  commitState : State

/-- Modelled from the spec: `ExtAccount` — an `Account` plus its spawner (`env/ext.rs` missing from
the sources; fields per its uses `ExtAccount::new(spawn.account(), &spawner)`
and `account.template_addr()`). -/
structure ExtAccount where
  account : Account
  spawner : Address
  deriving DecidableEq

def ExtAccount.template_addr (a : ExtAccount) : TemplateAddr := a.account.template_addr

/-- Insertion into / lookup of an association list (the in-memory stores'
`HashMap`s, `env/memory/template_store.rs`; a fresh insertion shadows an
older binding exactly like `HashMap::insert`). -/
def lookupAssoc {κ α : Type} [DecidableEq κ] : List (κ × α) → κ → Option α
  | [], _ => none
  | (k, v) :: rest, k2 => if k = k2 then some v else lookupAssoc rest k2

/-- The runtime `Env`: the two stores behind the `TemplateStore` /
`AccountStore` traits (`env/traits/store.rs`), plus the environment's address
computations and message parser for deploys (the `Env` wrapper itself is
missing from the sources; `MemTemplateStore` stores a template by serializing
it under its hash — serialization round-trips per §4.4, so the store is
modelled at the trait level as a map to `Template` values). -/
structure Env where
  accounts : List (Address × ExtAccount)
  templates : List (TemplateAddr × Template)
  computeTemplateAddrFn : Template → TemplateAddr
  computeAccountAddrFn : SpawnAccount → Address
  parseDeployFn : List Byte → Option Template

/-- Modelled from the spec: `TemplateStore::store` via the `Env` (`store_template`). -/
def Env.store_template (env : Env) (t : Template) (addr : TemplateAddr) : Env :=
  { env with templates := (addr, t) :: env.templates }

/-- Modelled from the spec: `TemplateStore::load` via the `Env` (`template`). -/
def Env.template (env : Env) (addr : TemplateAddr) : Option Template :=
  lookupAssoc env.templates addr

/-- Modelled from the spec: `AccountStore::store` via the `Env` (`store_account`). -/
def Env.store_account (env : Env) (acc : ExtAccount) (addr : Address) : Env :=
  { env with accounts := (addr, acc) :: env.accounts }

/-- Modelled from the spec: `AccountStore::load` via the `Env`. -/
def Env.account (env : Env) (addr : Address) : Option ExtAccount :=
  lookupAssoc env.accounts addr

/-- Modelled from the spec: `AccountStore::resolve_template_addr` via the `Env`. -/
def Env.resolve_template_addr (env : Env) (addr : Address) : Option TemplateAddr :=
  (env.account addr).map (fun a => a.template_addr)

/-- Modelled from the spec: `Env::account_template`: resolve the account, then load its template
(`default.rs` passes the `{Code, Data, Ctors}` interests — a loading
optimization with no observable effect here). -/
def Env.account_template (env : Env) (addr : Address) : Option Template :=
  (env.account addr).bind (fun a => env.template a.template_addr)

/-- Source `DefaultRuntime`: the environment plus the naive append-only
template-price cache (`FuncPrice` is a function-index → price table;
`svm-gas` is missing from the sources). -/
structure DefaultRuntime where
  env : Env
  template_prices : List (TemplateAddr × (Nat → Nat))

/-- Source `DefaultRuntime::instance_gas_used`: the source returns `Ok(Gas::new())`
unconditionally (its body is a `TODO`). -/
def instance_gas_used (_inst : WasmInstance) : Except Unit Gas := .ok Gas.new

/-- UTF-8 bytes of `"svm_alloc"`. -/
def svm_allocName : List Byte := [115, 118, 109, 95, 97, 108, 108, 111, 99]

/-- UTF-8 bytes of `"expected function to be a constructor"`. -/
def msgExpectedCtor : List Byte :=
  [101, 120, 112, 101, 99, 116, 101, 100, 32, 102, 117, 110, 99, 116, 105, 111, 110, 32,
   116, 111, 32, 98, 101, 32, 97, 32, 99, 111, 110, 115, 116, 114, 117, 99, 116, 111, 114]

/-- UTF-8 bytes of `"expected function to be a non-constructor"`. -/
def msgExpectedNonCtor : List Byte :=
  [101, 120, 112, 101, 99, 116, 101, 100, 32, 102, 117, 110, 99, 116, 105, 111, 110, 32,
   116, 111, 32, 98, 101, 32, 97, 32, 110, 111, 110, 45, 99, 111, 110, 115, 116, 114, 117,
   99, 116, 111, 114]

/-- UTF-8 bytes of ``"The given function is not a `ctor`."``. -/
def msgNotACtor : List Byte :=
  [84, 104, 101, 32, 103, 105, 118, 101, 110, 32, 102, 117, 110, 99, 116, 105, 111, 110,
   32, 105, 115, 32, 110, 111, 116, 32, 97, 32, 96, 99, 116, 111, 114, 96, 46]

/-- Source `DefaultRuntime::func`: function lookup, then the native-signature
check. -/
def runtimeFunc (inst : WasmInstance) (target : Address) (template : TemplateAddr)
    (func_name : List Byte) : Except Failure Unit :=
  if ¬ inst.hasFunc func_name then
    .error (Failure.ofError (.FuncNotFound target template func_name))
  else if ¬ inst.sigOk func_name then
    .error (Failure.ofError (.FuncInvalidSignature target template func_name))
  else .ok ()

/-- Source `DefaultRuntime::wasmer_call`: invoke, take the logs, and either fail
with `FuncFailed` (carrying the trap message and the logs) or consult
`instance_gas_used` — whose designated error value would become `OOG`. -/
def wasmer_call (inst : WasmInstance) (target : Address) (template : TemplateAddr)
    (func_name : List Byte) : Except Failure (Outcome (List Int)) :=
  match inst.invoke func_name with
  | (logs, .error msg) => .error ⟨.FuncFailed target template func_name msg, logs⟩
  | (logs, .ok rets) =>
    match instance_gas_used inst with
    | .ok gas_used => .ok ⟨rets, gas_used, logs⟩
    | .error _ => .error ⟨.OOG, logs⟩

/-- Source `DefaultRuntime::call_alloc`. The source backs up the current
`ProtectedMode`, sets `AccessDenied` while running `svm_alloc`, and restores
the original mode only on the success path: when `svm_alloc` is absent it
deliberately does not restore ("since `svm_alloc` has failed and the
transaction will halt"), and when the nested `wasmer_call` fails the `?`
operator returns before the restore. The returned mode is the
`FuncEnv`'s mode after the call; the returned pointer is `svm_alloc`'s `u32`
return (its signature was checked, so it returns exactly one value). -/
def call_alloc (inst : WasmInstance) (target : Address) (template : TemplateAddr)
    (mode : ProtectedMode) (_size : Nat) : ProtectedMode × Except Failure Nat :=
  let origin_mode := mode
  let mode := ProtectedMode.AccessDenied
  if ¬ (inst.hasFunc svm_allocName && inst.sigOk svm_allocName) then
    (mode, .error (Failure.ofError (.FuncNotFound target template svm_allocName)))
  else
    match wasmer_call inst target template svm_allocName with
    | .error f => (mode, .error f)
    | .ok out => (origin_mode, .ok (out.returns.headD 0).toNat)

/-- Source `DefaultRuntime::call_with_alloc`: run `call_alloc`, assert that
`svm_alloc` set no returndata (a panic otherwise), copy the calldata into
guest memory at the returned pointer (`set_calldata` asserts the write stays
in bounds — a panic otherwise), then perform the actual call. -/
def call_with_alloc (inst : WasmInstance) (target : Address) (template : TemplateAddr)
    (mode : ProtectedMode) (calldata : List Byte) (func_name : List Byte) :
    Option (ProtectedMode × Except Failure (Outcome (List Int))) :=
  match call_alloc inst target template mode calldata.length with
  | (m, .error f) => some (m, .error f)
  | (m, .ok ptr) =>
    if inst.allocSetsReturndata then none
    else if inst.memSize < ptr + calldata.length then none
    else some (m, wasmer_call inst target template func_name)

/-- Source `DefaultRuntime::validate_call` — the constructor rule: inside a spawn
the function must be a declared ctor, outside a spawn it must not be. -/
def validate_call (call : Call) (template : Template) : Except Failure Unit :=
  let spawning := call.within_spawn
  let ctor := template.is_ctor call.func_name
  if spawning && !ctor then
    .error (Failure.ofError
      (.FuncNotAllowed call.target call.template call.func_name msgExpectedCtor))
  else if !spawning && ctor then
    .error (Failure.ofError
      (.FuncNotAllowed call.target call.template call.func_name msgExpectedNonCtor))
  else .ok ()

/-- Source `DefaultRuntime::run`: validate, compile, instantiate, extract the
exported memory (`unwrap` — panic when absent), resolve the function, invoke
(through `call_with_alloc` when the calldata is non-empty), then consult
`instance_gas_used` to build the final `Outcome` (its error value would
become `OOG`). The first component of the result is the `FuncEnv`'s
`ProtectedMode` when `run` returns. -/
def run (template : Template) (world : WasmWorld) (call : Call) :
    Option (ProtectedMode × Except Failure (Outcome (List Int))) :=
  let mode := call.protected_mode
  match validate_call call template with
  | .error f => some (mode, .error f)
  | .ok () =>
  match world.compile with
  | .error msg =>
      some (mode, .error (Failure.ofError (.CompilationFailed call.target call.template msg)))
  | .ok () =>
  match world.instantiate with
  | .error msg =>
      some (mode, .error (Failure.ofError (.InstantiationFailed call.target call.template msg)))
  | .ok inst =>
  if ¬ inst.hasMemory then none
  else
  match runtimeFunc inst call.target call.template call.func_name with
  | .error f => some (mode, .error f)
  | .ok () =>
  let afterCall :=
    if call.func_input.length > 0 then
      call_with_alloc inst call.target call.template mode call.func_input call.func_name
    else some (mode, wasmer_call inst call.target call.template call.func_name)
  match afterCall with
  | none => none
  | some (m, .error f) => some (m, .error f)
  | some (m, .ok out) =>
    match instance_gas_used inst with
    | .ok gas_used => some (m, .ok ⟨out.returns, gas_used, out.logs⟩)
    | .error _ => some (m, .error ⟨.OOG, out.logs⟩)

/-- Modelled from the spec: `CallReceipt` (`svm-types` missing; fields per §3 and `default.rs`). -/
structure CallReceipt where
  version : Nat
  success : Bool
  error : Option RuntimeError
  returndata : Option (List Byte)
  new_state : Option State
  gas_used : Gas
  logs : List ReceiptLog
  deriving DecidableEq

/-- Modelled from the spec: `CallReceipt::from_err`. -/
def CallReceipt.from_err (e : RuntimeError) (logs : List ReceiptLog) : CallReceipt :=
  { version := 0, success := false, error := some e, returndata := none, new_state := none,
    gas_used := Gas.new, logs }

/-- Source `DefaultRuntime::take_returndata`: no window set means empty returndata;
a set window is read from guest memory, whose reader asserts a positive
length (a panic otherwise). -/
def take_returndata (inst : WasmInstance) : Option (List Byte) :=
  match inst.returndata with
  | some d => if d.isEmpty then none else some d
  | none => some []

/-- Source `DefaultRuntime::outcome_to_receipt`: a successful receipt with the
returndata, the committed `State`, the outcome's gas and logs. -/
def outcome_to_receipt (inst : WasmInstance) (commitState : State)
    (out : Outcome (List Int)) : Option CallReceipt :=
  (take_returndata inst).map (fun rd =>
    { version := 0, success := true, error := none, returndata := some rd,
      new_state := some commitState, gas_used := out.gas_used, logs := out.logs })

/-- Source `DefaultRuntime::failure_to_receipt`. -/
def failure_to_receipt (f : Failure) : CallReceipt := CallReceipt.from_err f.err f.logs

/-- Source `DefaultRuntime::exec` composed with `exec_call`'s receipt conversion:
resolve the target's template (`AccountNotFound` otherwise), run the
pipeline, then turn the outcome or failure into a `CallReceipt`. On the
success path the instance is re-obtained from the (deterministic) world to
read the returndata the guest set — in the source this state lives on the
`FuncEnv` that `exec` threads through. -/
def DefaultRuntime.exec_call (rt : DefaultRuntime) (world : WasmWorld) (call : Call) :
    Option CallReceipt :=
  match rt.env.account_template call.target with
  | none => some (failure_to_receipt (Failure.ofError (.AccountNotFound call.target)))
  | some template =>
    match run template world call with
    | none => none
    | some (_m, .error f) => some (failure_to_receipt f)
    | some (_m, .ok out) =>
      match world.instantiate with
      | .error _ => none
      | .ok inst => outcome_to_receipt inst world.commitState out

/-- Source `DefaultRuntime::call` (via `build_call`): parse the transaction
(`expect` — panic on a message that did not pass `validate_call`), resolve
the target's template address (`unreachable!` when absent), and execute with
`FullAccess` outside a spawn. -/
def DefaultRuntime.call (rt : DefaultRuntime) (world : WasmWorld) (envelope : Envelope)
    (message : List Byte) (context : Context) : Option CallReceipt :=
  match call.decode_call message with
  | .error _ => none
  | .ok (tx, _) =>
    match rt.env.resolve_template_addr tx.target.inner with
    | none => none
    | some templateAddr =>
      rt.exec_call world
        { func_name := tx.func_name, func_input := tx.calldata, state := context.state,
          template := templateAddr, target := tx.target.inner, within_spawn := false,
          gas_limit := envelope.gas_limit, protected_mode := .FullAccess }

/-- Source `DefaultRuntime::deploy`: parse (`expect` — panic when not previously
validated), price the deploy (`svm_gas::transaction::deploy`, missing from
the sources — the abstract `priceDeploy` parameter), and either persist the
template under its computed address with `gas_used = price`, or return the
`OOG` receipt leaving the environment untouched. -/
def DefaultRuntime.deploy (rt : DefaultRuntime) (priceDeploy : List Byte → Nat)
    (envelope : Envelope) (message : List Byte) :
    Option (DefaultRuntime × DeployReceipt) :=
  match rt.env.parseDeployFn message with
  | none => none
  | some template =>
    let gas_limit := envelope.gas_limit
    let install_price := priceDeploy message
    if gas_limit ≥ install_price then
      let gas_used := Gas.withAmount install_price
      let addr := rt.env.computeTemplateAddrFn template
      some ({ rt with env := rt.env.store_template template addr },
        DeployReceipt.new addr gas_used)
    else
      some (rt, DeployReceipt.new_oog)

/-- Modelled from the spec: `SpawnReceipt` (`svm-types` missing; fields per §3). -/
structure SpawnReceipt where
  version : Nat
  success : Bool
  error : Option RuntimeError
  account_addr : Option Address
  init_state : Option State
  returndata : Option (List Byte)
  gas_used : Gas
  logs : List ReceiptLog
  deriving DecidableEq

/-- Modelled from the spec: `SpawnReceipt::from_err`. -/
def SpawnReceipt.from_err (e : RuntimeError) (logs : List ReceiptLog) : SpawnReceipt :=
  { version := 0, success := false, error := some e, account_addr := none,
    init_state := none, returndata := none, gas_used := Gas.new, logs }

/-- Modelled from the spec: `SpawnReceipt::new_oog`. -/
def SpawnReceipt.new_oog (logs : List ReceiptLog) : SpawnReceipt := .from_err .OOG logs

/-- Modelled from the spec: `svm_types::into_spawn_receipt` (missing from the sources; modelled from
§3: a successful spawn receipt adds the account address, the init state and
the returndata; on failure only error and logs are meaningful). -/
def into_spawn_receipt (r : CallReceipt) (account_addr : Address) : SpawnReceipt :=
  if r.success then
    { version := r.version, success := true, error := none,
      account_addr := some account_addr, init_state := r.new_state,
      returndata := r.returndata, gas_used := r.gas_used, logs := r.logs }
  else
    { version := r.version, success := false, error := r.error, account_addr := none,
      init_state := none, returndata := none, gas_used := r.gas_used, logs := r.logs }

/-- Source `DefaultRuntime::call_ctor`: an internal `Call` of the constructor
against the fresh zero `State`, `within_spawn = true`, `FullAccess` mode,
whose receipt is converted into a `SpawnReceipt` for `target`. -/
def DefaultRuntime.call_ctor (rt : DefaultRuntime) (world : WasmWorld)
    (spawnMsg : SpawnAccount) (target : Address) (gas_left : Nat) : Option SpawnReceipt :=
  (rt.exec_call world
    { func_name := spawnMsg.ctor_name, func_input := spawnMsg.calldata,
      state := State.zeros, template := spawnMsg.account.template_addr, target := target,
      within_spawn := true, gas_limit := gas_left, protected_mode := .FullAccess }).map
    (fun receipt => into_spawn_receipt receipt target)

/-- The `FuncPrice` table `spawn` uses: the cached one when the template was
priced before, otherwise the freshly computed table. -/
def spawnFuncPrice (rt : DefaultRuntime) (computePrices : Nat → Nat)
    (template_addr : TemplateAddr) : Nat → Nat :=
  match lookupAssoc rt.template_prices template_addr with
  | some prices => prices
  | none => computePrices

/-- Source `DefaultRuntime::spawn`. Parameters standing for collaborators missing
from the sources: `priceSpawnPayload` is `svm_gas::transaction::spawn`,
`programExports` the parsed program's export table
(`program.exports().get(..)`, `unwrap`ped — panic when absent), and
`computePrices` the `ProgramPricing` visit result. The pipeline: parse
(`expect`), load the template (`expect`), memoize the price table, reject a
non-ctor name with `FuncNotAllowed`, check the fixed unit price
(`OOG` when `gas_limit ≤ price`; `Metering` is `unreachable!`), subtract the
payload price (`OOG` on underflow), then persist the account and call the
constructor. -/
def DefaultRuntime.spawn (rt : DefaultRuntime) (world : WasmWorld)
    (priceSpawnPayload : List Byte → Nat) (programExports : List Byte → Option Nat)
    (computePrices : Nat → Nat) (envelope : Envelope) (message : List Byte)
    (_context : Context) : Option (DefaultRuntime × SpawnReceipt) :=
  let gas_limit := envelope.gas_limit
  match spawn.decode message with
  | .error _ => none
  | .ok (base, _) =>
    let template_addr := base.account.template_addr
    match rt.env.template template_addr with
    | none => none
    | some template =>
      let gas_mode := template.code_section.gas_mode
      let func_price := spawnFuncPrice rt computePrices template_addr
      let rt := { rt with template_prices :=
        (match lookupAssoc rt.template_prices template_addr with
          | some _ => rt.template_prices
          | none => (template_addr, computePrices) :: rt.template_prices) }
      if ¬ template.is_ctor base.ctor_name then
        let account_addr := rt.env.computeAccountAddrFn base
        some (rt, SpawnReceipt.from_err
          (.FuncNotAllowed account_addr template_addr base.ctor_name msgNotACtor) [])
      else
        match gas_mode with
        | .Metering => none
        | .Fixed =>
          match programExports base.ctor_name with
          | none => none
          | some ctor_func_index =>
            let price := func_price ctor_func_index
            if gas_limit ≤ price then some (rt, SpawnReceipt.new_oog [])
            else
              let payload_price := priceSpawnPayload message
              if payload_price ≤ gas_limit then
                let gas_left := gas_limit - payload_price
                let account : ExtAccount := ⟨base.account, envelope.principal⟩
                let target := rt.env.computeAccountAddrFn base
                let rt2 := { rt with env := rt.env.store_account account target }
                (rt2.call_ctor world base target gas_left).map (fun receipt => (rt2, receipt))
              else some (rt, SpawnReceipt.new_oog [])

/-- A concrete 20-byte account/target address. -/
def addrW : Address := ⟨List.replicate 20 7⟩

/-- A concrete template address. -/
def tplAddrW : TemplateAddr := ⟨⟨List.replicate 20 9⟩⟩

/-- An instance exporting no functions at all (in particular no
`svm_alloc`). -/
def instNoAlloc : WasmInstance :=
  { hasFunc := fun _ => false, sigOk := fun _ => false,
    invoke := fun _ => ([], .error []), hasMemory := true, memSize := 65536,
    allocSetsReturndata := false, returndata := none }

/-- An instance whose every invocation traps. -/
def instTrapAlloc : WasmInstance :=
  { hasFunc := fun _ => true, sigOk := fun _ => true,
    invoke := fun _ => ([], .error [116, 114, 97, 112]), hasMemory := true,
    memSize := 65536, allocSetsReturndata := false, returndata := none }

/-- An instance whose every invocation succeeds returning `5`. -/
def instOkAlloc : WasmInstance :=
  { hasFunc := fun _ => true, sigOk := fun _ => true,
    invoke := fun _ => ([], .ok [5]), hasMemory := true, memSize := 65536,
    allocSetsReturndata := false, returndata := none }

/-- Claim C2 (counterexample): protected-mode restoration fails on the error
paths of `call_alloc`. Starting from `FullAccess`, when `svm_alloc` is
absent, or when the nested invocation traps, the mode after `call_alloc` is
`AccessDenied`, not the mode at entry — the source restores only on the
success path. -/
theorem c2_mode_restoration_counterexample :
    (call_alloc instNoAlloc addrW tplAddrW .FullAccess 3).1 = .AccessDenied ∧
      (call_alloc instNoAlloc addrW tplAddrW .FullAccess 3).1 ≠ .FullAccess ∧
      (call_alloc instNoAlloc addrW tplAddrW .FullAccess 3).2 =
        .error (Failure.ofError (.FuncNotFound addrW tplAddrW svm_allocName)) ∧
      (call_alloc instTrapAlloc addrW tplAddrW .FullAccess 3).1 = .AccessDenied ∧
      (call_alloc instTrapAlloc addrW tplAddrW .FullAccess 3).1 ≠ .FullAccess :=
  ⟨rfl, by decide, rfl, rfl, by decide⟩

/-- Claim C2 (amended): `call_alloc` restores the caller's protected mode on
the success path; on every failure path — `svm_alloc` absent or the nested
invocation failing — the mode is left at `AccessDenied` (deliberately, since
the transaction halts). -/
theorem c2_call_alloc_mode_restoration :
    ∀ (inst : WasmInstance) (target : Address) (template : TemplateAddr)
      (mode : ProtectedMode) (size : Nat),
      (∀ out, (call_alloc inst target template mode size).2 = .ok out →
        (call_alloc inst target template mode size).1 = mode) ∧
      (∀ f, (call_alloc inst target template mode size).2 = .error f →
        (call_alloc inst target template mode size).1 = .AccessDenied) := by
  intro inst target template mode size
  unfold call_alloc
  by_cases hc : ¬ (inst.hasFunc svm_allocName && inst.sigOk svm_allocName) = true
  · rw [if_pos hc]
    exact ⟨(fun out hout => nomatch hout), (fun f _ => rfl)⟩
  · rw [if_neg hc]
    cases hw : wasmer_call inst target template svm_allocName with
    | error f => exact ⟨(fun out hout => nomatch hout), (fun f2 _ => rfl)⟩
    | ok out => exact ⟨(fun out2 _ => rfl), (fun f hf => nomatch hf)⟩

/-- Witness for C2: the mode is restored after a successful `svm_alloc` and
left at `AccessDenied` when `svm_alloc` is absent. -/
theorem c2_call_alloc_mode_restoration_witness :
    (call_alloc instOkAlloc addrW tplAddrW .FullAccess 3).2 = .ok 5 ∧
      (call_alloc instOkAlloc addrW tplAddrW .FullAccess 3).1 = .FullAccess ∧
      (call_alloc instNoAlloc addrW tplAddrW .FullAccess 3).2 =
        .error (Failure.ofError (.FuncNotFound addrW tplAddrW svm_allocName)) ∧
      (call_alloc instNoAlloc addrW tplAddrW .FullAccess 3).1 = .AccessDenied :=
  ⟨rfl,
   (c2_call_alloc_mode_restoration instOkAlloc addrW tplAddrW .FullAccess 3).1 5 rfl,
   rfl,
   (c2_call_alloc_mode_restoration instNoAlloc addrW tplAddrW .FullAccess 3).2
     (Failure.ofError (.FuncNotFound addrW tplAddrW svm_allocName)) rfl⟩

/-- Claim C5: the deploy gas gate. For every parsed deploy message, `deploy`
returns the `OOG` failure receipt (success = false, error = OOG) exactly when
`gas_limit < price_deploy(message)`, and in that case nothing is persisted;
otherwise the receipt succeeds, the template is stored under its computed
address, the receipt carries that address, and `gas_used` is the price. -/
theorem c5_deploy_gas_gate :
    ∀ (rt : DefaultRuntime) (priceDeploy : List Byte → Nat) (envelope : Envelope)
      (message : List Byte) (template : Template),
      rt.env.parseDeployFn message = some template →
      ∃ rt2 receipt,
        rt.deploy priceDeploy envelope message = some (rt2, receipt) ∧
        (receipt.success = false ↔ envelope.gas_limit < priceDeploy message) ∧
        (envelope.gas_limit < priceDeploy message →
          receipt = DeployReceipt.new_oog ∧ receipt.error = some .OOG ∧ rt2 = rt) ∧
        (priceDeploy message ≤ envelope.gas_limit →
          receipt = DeployReceipt.new (rt.env.computeTemplateAddrFn template)
              (Gas.withAmount (priceDeploy message)) ∧
            receipt.success = true ∧
            receipt.addr = some (rt.env.computeTemplateAddrFn template) ∧
            receipt.gas_used = Gas.withAmount (priceDeploy message) ∧
            rt2.env.template (rt.env.computeTemplateAddrFn template) = some template ∧
            rt2.env.accounts = rt.env.accounts) := by
  intro rt priceDeploy envelope message template hparse
  unfold DefaultRuntime.deploy
  rw [hparse]
  dsimp only
  by_cases hgas : envelope.gas_limit ≥ priceDeploy message
  · rw [if_pos hgas]
    refine ⟨_, _, rfl, ?_, ?_, ?_⟩
    · simp only [DeployReceipt.new]
      constructor
      · intro hfalse; exact absurd hfalse (by simp)
      · intro hlt; omega
    · intro hlt; omega
    · intro _
      refine ⟨rfl, rfl, rfl, rfl, ?_, rfl⟩
      simp [Env.template, Env.store_template, lookupAssoc]
  · rw [if_neg hgas]
    refine ⟨_, _, rfl, ?_, ?_, ?_⟩
    · simp only [DeployReceipt.new_oog, DeployReceipt.from_err]
      constructor
      · intro _; omega
      · intro _; trivial
    · intro _; exact ⟨rfl, rfl, rfl⟩
    · intro hle; omega

/-- A template whose single declared ctor is `"init"`, in `Fixed` gas mode. -/
def templateW : Template :=
  { code_section := { code := [0], gas_mode := .Fixed },
    ctors := [[105, 110, 105, 116]], fixed_layout := FixedLayout.new [] }

/-- A concrete environment: one stored template at `tplAddrW`, no accounts;
the address computations and the deploy parser are fixed functions. -/
def envW : Env :=
  { accounts := [], templates := [(tplAddrW, templateW)],
    computeTemplateAddrFn := fun _ => tplAddrW,
    computeAccountAddrFn := fun _ => addrW,
    parseDeployFn := fun _ => some templateW }

/-- A concrete runtime over `envW` with an empty price cache. -/
def rtW : DefaultRuntime := { env := envW, template_prices := [] }

/-- Witness for C5: a deploy with enough gas on the concrete runtime. -/
theorem c5_deploy_gas_gate_witness :
    rtW.env.parseDeployFn [1] = some templateW ∧
      ∃ rt2 receipt,
        rtW.deploy (fun _ => 10) ⟨addrW, 100⟩ [1] = some (rt2, receipt) ∧
        (receipt.success = false ↔ (⟨addrW, 100⟩ : Envelope).gas_limit < 10) ∧
        ((⟨addrW, 100⟩ : Envelope).gas_limit < 10 →
          receipt = DeployReceipt.new_oog ∧ receipt.error = some .OOG ∧ rt2 = rtW) ∧
        (10 ≤ (⟨addrW, 100⟩ : Envelope).gas_limit →
          receipt = DeployReceipt.new (rtW.env.computeTemplateAddrFn templateW)
              (Gas.withAmount 10) ∧
            receipt.success = true ∧
            receipt.addr = some (rtW.env.computeTemplateAddrFn templateW) ∧
            receipt.gas_used = Gas.withAmount 10 ∧
            rt2.env.template (rtW.env.computeTemplateAddrFn templateW) = some templateW ∧
            rt2.env.accounts = rtW.env.accounts) :=
  ⟨rfl, c5_deploy_gas_gate rtW (fun _ => 10) ⟨addrW, 100⟩ [1] templateW rfl⟩

theorem wasmer_call_err_shape (inst : WasmInstance) (t : Address) (tpl : TemplateAddr)
    (fn : List Byte) (f : Failure) (h : wasmer_call inst t tpl fn = .error f) :
    ∃ msg, f = ⟨.FuncFailed t tpl fn msg, (inst.invoke fn).1⟩ := by
  unfold wasmer_call at h
  rcases hp : inst.invoke fn with ⟨logs, ret⟩
  rw [hp] at h
  cases ret with
  | error msg =>
      dsimp only at h
      refine ⟨msg, ?_⟩
      have hf := Except.error.inj h
      rw [← hf]
  | ok rets =>
      dsimp only [instance_gas_used] at h
      nomatch h

theorem wasmer_call_ok_gas (inst : WasmInstance) (t : Address) (tpl : TemplateAddr)
    (fn : List Byte) (out : Outcome (List Int)) (h : wasmer_call inst t tpl fn = .ok out) :
    out.gas_used = Gas.new := by
  unfold wasmer_call at h
  rcases hp : inst.invoke fn with ⟨logs, ret⟩
  rw [hp] at h
  cases ret with
  | error msg => nomatch h
  | ok rets =>
      dsimp only [instance_gas_used] at h
      have := Except.ok.inj h
      rw [← this]

theorem call_alloc_err_shape (inst : WasmInstance) (t : Address) (tpl : TemplateAddr)
    (mode : ProtectedMode) (size : Nat) (f : Failure)
    (h : (call_alloc inst t tpl mode size).2 = .error f) :
    f = Failure.ofError (.FuncNotFound t tpl svm_allocName) ∨
      ∃ msg, f = ⟨.FuncFailed t tpl svm_allocName msg, (inst.invoke svm_allocName).1⟩ := by
  unfold call_alloc at h
  by_cases hc : ¬ (inst.hasFunc svm_allocName && inst.sigOk svm_allocName) = true
  · rw [if_pos hc] at h
    dsimp only at h
    exact Or.inl (Except.error.inj h).symm
  · rw [if_neg hc] at h
    cases hw : wasmer_call inst t tpl svm_allocName with
    | error f2 =>
        rw [hw] at h
        dsimp only at h
        have hf := Except.error.inj h
        rw [← hf]
        exact Or.inr (wasmer_call_err_shape inst t tpl svm_allocName f2 hw)
    | ok out =>
        rw [hw] at h
        nomatch h

theorem call_with_alloc_err_shape (inst : WasmInstance) (t : Address) (tpl : TemplateAddr)
    (mode : ProtectedMode) (cd fn : List Byte) (m : ProtectedMode) (f : Failure)
    (h : call_with_alloc inst t tpl mode cd fn = some (m, .error f)) :
    f = Failure.ofError (.FuncNotFound t tpl svm_allocName) ∨
      (∃ msg, f = ⟨.FuncFailed t tpl svm_allocName msg, (inst.invoke svm_allocName).1⟩) ∨
      (∃ msg, f = ⟨.FuncFailed t tpl fn msg, (inst.invoke fn).1⟩) := by
  unfold call_with_alloc at h
  cases hca : call_alloc inst t tpl mode cd.length with
  | mk m2 r =>
      rw [hca] at h
      cases r with
      | error f2 =>
          dsimp only at h
          simp only [Option.some.injEq, Prod.mk.injEq] at h
          have hf : f = f2 := (Except.error.inj h.2).symm
          rw [hf]
          rcases call_alloc_err_shape inst t tpl mode cd.length f2 (by rw [hca]) with hs | hs
          · exact Or.inl hs
          · exact Or.inr (Or.inl hs)
      | ok ptr =>
          dsimp only at h
          by_cases h1 : inst.allocSetsReturndata = true
          · rw [if_pos h1] at h; nomatch h
          · rw [if_neg h1] at h
            by_cases h2 : inst.memSize < ptr + cd.length
            · rw [if_pos h2] at h; nomatch h
            · rw [if_neg h2] at h
              simp only [Option.some.injEq, Prod.mk.injEq] at h
              exact Or.inr (Or.inr (wasmer_call_err_shape inst t tpl fn f h.2))

theorem call_with_alloc_ok_shape (inst : WasmInstance) (t : Address) (tpl : TemplateAddr)
    (mode : ProtectedMode) (cd fn : List Byte) (m : ProtectedMode)
    (out : Outcome (List Int))
    (h : call_with_alloc inst t tpl mode cd fn = some (m, .ok out)) :
    wasmer_call inst t tpl fn = .ok out := by
  unfold call_with_alloc at h
  cases hca : call_alloc inst t tpl mode cd.length with
  | mk m2 r =>
      rw [hca] at h
      cases r with
      | error f2 =>
          dsimp only at h
          simp only [Option.some.injEq, Prod.mk.injEq] at h
          exact absurd h.2 (by simp)
      | ok ptr =>
          dsimp only at h
          by_cases h1 : inst.allocSetsReturndata = true
          · rw [if_pos h1] at h; nomatch h
          · rw [if_neg h1] at h
            by_cases h2 : inst.memSize < ptr + cd.length
            · rw [if_pos h2] at h; nomatch h
            · rw [if_neg h2] at h
              simp only [Option.some.injEq, Prod.mk.injEq] at h
              exact h.2

theorem runtimeFunc_err_shape (inst : WasmInstance) (t : Address) (tpl : TemplateAddr)
    (fn : List Byte) (f : Failure) (h : runtimeFunc inst t tpl fn = .error f) :
    f = Failure.ofError (.FuncNotFound t tpl fn) ∨
      f = Failure.ofError (.FuncInvalidSignature t tpl fn) := by
  unfold runtimeFunc at h
  by_cases h1 : ¬ inst.hasFunc fn = true
  · rw [if_pos h1] at h
    exact Or.inl (Except.error.inj h).symm
  · rw [if_neg h1] at h
    by_cases h2 : ¬ inst.sigOk fn = true
    · rw [if_pos h2] at h
      exact Or.inr (Except.error.inj h).symm
    · rw [if_neg h2] at h
      nomatch h

theorem run_err_shape (template : Template) (world : WasmWorld) (c : Call)
    (m : ProtectedMode) (f : Failure) (h : run template world c = some (m, .error f)) :
    validate_call c template = .error f ∨
      (∃ msg, f = Failure.ofError (.CompilationFailed c.target c.template msg)) ∨
      (∃ msg, f = Failure.ofError (.InstantiationFailed c.target c.template msg)) ∨
      f = Failure.ofError (.FuncNotFound c.target c.template c.func_name) ∨
      f = Failure.ofError (.FuncInvalidSignature c.target c.template c.func_name) ∨
      f = Failure.ofError (.FuncNotFound c.target c.template svm_allocName) ∨
      (∃ msg logs, f = ⟨.FuncFailed c.target c.template svm_allocName msg, logs⟩) ∨
      (∃ msg logs, f = ⟨.FuncFailed c.target c.template c.func_name msg, logs⟩) := by
  unfold run at h
  dsimp only at h
  cases hv : validate_call c template with
  | error fv =>
      rw [hv] at h
      dsimp only at h
      simp only [Option.some.injEq, Prod.mk.injEq] at h
      have hf : fv = f := Except.error.inj h.2
      cases hf
      exact Or.inl rfl
  | ok u =>
      cases u
      rw [hv] at h
      dsimp only at h
      cases hcomp : world.compile with
      | error msg =>
          rw [hcomp] at h
          dsimp only at h
          simp only [Option.some.injEq, Prod.mk.injEq] at h
          exact Or.inr (Or.inl ⟨msg, (Except.error.inj h.2).symm⟩)
      | ok u2 =>
          cases u2
          rw [hcomp] at h
          dsimp only at h
          cases hinst : world.instantiate with
          | error msg =>
              rw [hinst] at h
              dsimp only at h
              simp only [Option.some.injEq, Prod.mk.injEq] at h
              exact Or.inr (Or.inr (Or.inl ⟨msg, (Except.error.inj h.2).symm⟩))
          | ok inst =>
              rw [hinst] at h
              dsimp only at h
              by_cases hm : ¬ inst.hasMemory = true
              · rw [if_pos hm] at h
                nomatch h
              · rw [if_neg hm] at h
                cases hfn : runtimeFunc inst c.target c.template c.func_name with
                | error ff =>
                    rw [hfn] at h
                    dsimp only at h
                    simp only [Option.some.injEq, Prod.mk.injEq] at h
                    have hf : ff = f := Except.error.inj h.2
                    rcases runtimeFunc_err_shape inst c.target c.template c.func_name ff hfn
                      with hs | hs
                    · exact Or.inr (Or.inr (Or.inr (Or.inl (hf ▸ hs))))
                    · exact Or.inr (Or.inr (Or.inr (Or.inr (Or.inl (hf ▸ hs)))))
                | ok u3 =>
                    cases u3
                    rw [hfn] at h
                    dsimp only at h
                    by_cases hin : c.func_input.length > 0
                    · rw [if_pos hin] at h
                      cases hca : call_with_alloc inst c.target c.template c.protected_mode
                          c.func_input c.func_name with
                      | none =>
                          rw [hca] at h
                          nomatch h
                      | some p =>
                          obtain ⟨m2, r⟩ := p
                          rw [hca] at h
                          cases r with
                          | error f2 =>
                              dsimp only at h
                              simp only [Option.some.injEq, Prod.mk.injEq] at h
                              have hf : f2 = f := Except.error.inj h.2
                              rcases call_with_alloc_err_shape inst c.target c.template
                                  c.protected_mode c.func_input c.func_name m2 f2 hca
                                with hs | hs | hs
                              · exact Or.inr (Or.inr (Or.inr (Or.inr (Or.inr
                                  (Or.inl (hf ▸ hs))))))
                              · obtain ⟨msg, hmsg⟩ := hs
                                exact Or.inr (Or.inr (Or.inr (Or.inr (Or.inr (Or.inr
                                  (Or.inl ⟨msg, _, hf ▸ hmsg⟩))))))
                              · obtain ⟨msg, hmsg⟩ := hs
                                exact Or.inr (Or.inr (Or.inr (Or.inr (Or.inr (Or.inr
                                  (Or.inr ⟨msg, _, hf ▸ hmsg⟩))))))
                          | ok out =>
                              dsimp only [instance_gas_used] at h
                              simp at h
                    · rw [if_neg hin] at h
                      cases hw : wasmer_call inst c.target c.template c.func_name with
                      | error f2 =>
                          rw [hw] at h
                          dsimp only at h
                          simp only [Option.some.injEq, Prod.mk.injEq] at h
                          have hf : f2 = f := Except.error.inj h.2
                          obtain ⟨msg, hmsg⟩ :=
                            wasmer_call_err_shape inst c.target c.template c.func_name f2 hw
                          exact Or.inr (Or.inr (Or.inr (Or.inr (Or.inr (Or.inr
                            (Or.inr ⟨msg, _, hf ▸ hmsg⟩))))))
                      | ok out =>
                          rw [hw] at h
                          dsimp only [instance_gas_used] at h
                          simp at h

theorem run_ok_gas (template : Template) (world : WasmWorld) (c : Call)
    (m : ProtectedMode) (out : Outcome (List Int))
    (h : run template world c = some (m, .ok out)) : out.gas_used = Gas.new := by
  unfold run at h
  dsimp only at h
  cases hv : validate_call c template with
  | error fv =>
      rw [hv] at h
      dsimp only at h
      simp at h
  | ok u =>
      cases u
      rw [hv] at h
      dsimp only at h
      cases hcomp : world.compile with
      | error msg =>
          rw [hcomp] at h
          dsimp only at h
          simp at h
      | ok u2 =>
          cases u2
          rw [hcomp] at h
          dsimp only at h
          cases hinst : world.instantiate with
          | error msg =>
              rw [hinst] at h
              dsimp only at h
              simp at h
          | ok inst =>
              rw [hinst] at h
              dsimp only at h
              by_cases hm : ¬ inst.hasMemory = true
              · rw [if_pos hm] at h
                nomatch h
              · rw [if_neg hm] at h
                cases hfn : runtimeFunc inst c.target c.template c.func_name with
                | error ff =>
                    rw [hfn] at h
                    dsimp only at h
                    simp at h
                | ok u3 =>
                    cases u3
                    rw [hfn] at h
                    dsimp only at h
                    by_cases hin : c.func_input.length > 0
                    · rw [if_pos hin] at h
                      cases hca : call_with_alloc inst c.target c.template c.protected_mode
                          c.func_input c.func_name with
                      | none =>
                          rw [hca] at h
                          nomatch h
                      | some p =>
                          obtain ⟨m2, r⟩ := p
                          rw [hca] at h
                          cases r with
                          | error f2 =>
                              dsimp only at h
                              simp at h
                          | ok out2 =>
                              dsimp only [instance_gas_used] at h
                              simp only [Option.some.injEq, Prod.mk.injEq] at h
                              have := h.2
                              rw [← Except.ok.inj this]
                    · rw [if_neg hin] at h
                      cases hw : wasmer_call inst c.target c.template c.func_name with
                      | error f2 =>
                          rw [hw] at h
                          dsimp only at h
                          simp at h
                      | ok out2 =>
                          rw [hw] at h
                          dsimp only [instance_gas_used] at h
                          simp only [Option.some.injEq, Prod.mk.injEq] at h
                          have := h.2
                          rw [← Except.ok.inj this]

theorem validate_call_err_shape (c : Call) (template : Template) (f : Failure)
    (h : validate_call c template = .error f) :
    f = Failure.ofError
        (.FuncNotAllowed c.target c.template c.func_name msgExpectedCtor) ∨
      f = Failure.ofError
        (.FuncNotAllowed c.target c.template c.func_name msgExpectedNonCtor) := by
  unfold validate_call at h
  dsimp only at h
  by_cases h1 : (c.within_spawn && !template.is_ctor c.func_name) = true
  · rw [if_pos h1] at h
    exact Or.inl (Except.error.inj h).symm
  · rw [if_neg h1] at h
    by_cases h2 : (!c.within_spawn && template.is_ctor c.func_name) = true
    · rw [if_pos h2] at h
      exact Or.inr (Except.error.inj h).symm
    · rw [if_neg h2] at h
      nomatch h

theorem run_err_no_oog (template : Template) (world : WasmWorld) (c : Call)
    (m : ProtectedMode) (f : Failure) (h : run template world c = some (m, .error f)) :
    f.err ≠ .OOG := by
  rcases run_err_shape template world c m f h with hs | hs | hs | hs | hs | hs | hs | hs
  · rcases validate_call_err_shape c template f hs with hv | hv <;> rw [hv] <;> simp [Failure.ofError]
  · obtain ⟨msg, rfl⟩ := hs
    simp [Failure.ofError]
  · obtain ⟨msg, rfl⟩ := hs
    simp [Failure.ofError]
  · rw [hs]; simp [Failure.ofError]
  · rw [hs]; simp [Failure.ofError]
  · rw [hs]; simp [Failure.ofError]
  · obtain ⟨msg, logs, rfl⟩ := hs
    simp
  · obtain ⟨msg, logs, rfl⟩ := hs
    simp

/-- Claim C8: `instance_gas_used` always returns `Ok` with the default (empty)
`Gas` value; consequently neither `wasmer_call` nor the `run` pipeline ever
produces an `OOG` failure, and the gas recorded in every receipt `exec_call`
builds is the default value rather than a metered amount. -/
theorem c8_gas_is_default :
    (∀ inst : WasmInstance, instance_gas_used inst = .ok Gas.new)
    ∧ (∀ (inst : WasmInstance) (t : Address) (tpl : TemplateAddr) (fn : List Byte)
        (f : Failure), wasmer_call inst t tpl fn = .error f → f.err ≠ .OOG)
    ∧ (∀ (template : Template) (world : WasmWorld) (c : Call) (m : ProtectedMode)
        (r : Except Failure (Outcome (List Int))),
        run template world c = some (m, r) →
        (∀ f, r = .error f → f.err ≠ .OOG) ∧
        (∀ out, r = .ok out → out.gas_used = Gas.new))
    ∧ (∀ (rt : DefaultRuntime) (world : WasmWorld) (c : Call) (receipt : CallReceipt),
        rt.exec_call world c = some receipt →
        receipt.gas_used = Gas.new ∧ receipt.error ≠ some .OOG) := by
  refine ⟨fun _ => rfl, ?_, ?_, ?_⟩
  · intro inst t tpl fn f h
    obtain ⟨msg, rfl⟩ := wasmer_call_err_shape inst t tpl fn f h
    simp
  · intro template world c m r h
    constructor
    · intro f hf
      subst hf
      exact run_err_no_oog template world c m f h
    · intro out hout
      subst hout
      exact run_ok_gas template world c m out h
  · intro rt world c receipt h
    unfold DefaultRuntime.exec_call at h
    cases hat : rt.env.account_template c.target with
    | none =>
        rw [hat] at h
        dsimp only [failure_to_receipt, Failure.ofError, CallReceipt.from_err] at h
        have hr := (Option.some.inj h).symm
        rw [hr]
        exact ⟨rfl, by simp⟩
    | some template =>
        rw [hat] at h
        dsimp only at h
        cases hrun : run template world c with
        | none =>
            rw [hrun] at h
            nomatch h
        | some p =>
            obtain ⟨m, r⟩ := p
            rw [hrun] at h
            cases r with
            | error f =>
                dsimp only [failure_to_receipt, CallReceipt.from_err] at h
                have hr := (Option.some.inj h).symm
                rw [hr]
                refine ⟨rfl, ?_⟩
                have := run_err_no_oog template world c m f hrun
                intro hc
                exact this (Option.some.inj hc)
            | ok out =>
                dsimp only at h
                cases hw : world.instantiate with
                | error msg =>
                    rw [hw] at h
                    nomatch h
                | ok inst =>
                    rw [hw] at h
                    dsimp only [outcome_to_receipt] at h
                    cases htr : take_returndata inst with
                    | none =>
                        rw [htr] at h
                        nomatch h
                    | some rd =>
                        rw [htr] at h
                        dsimp only [Option.map] at h
                        have hr := (Option.some.inj h).symm
                        rw [hr]
                        refine ⟨run_ok_gas template world c m out hrun, by simp⟩

/-- UTF-8 bytes of `"init"`, the ctor declared by `templateW`. -/
def ctorW : List Byte := [105, 110, 105, 116]

/-- A concrete account bound to `tplAddrW`. -/
def accountW : Account := { name := [64], template_addr := tplAddrW }

/-- Modelled from the spec: `envW` with the account `addrW ↦ accountW` stored. -/
def envAccW : Env := { envW with accounts := [(addrW, ⟨accountW, addrW⟩)] }

/-- A concrete runtime that can resolve `addrW`. -/
def rtAccW : DefaultRuntime := { env := envAccW, template_prices := [] }

/-- A world where compilation and instantiation succeed. -/
def worldOkW : WasmWorld :=
  { compile := .ok (), instantiate := .ok instOkAlloc, commitState := State.zeros }

/-- A constructor call (within a spawn) with empty calldata. -/
def callCtorW : Call :=
  { func_name := ctorW, func_input := [], state := State.zeros, template := tplAddrW,
    target := addrW, within_spawn := true, gas_limit := 100, protected_mode := .FullAccess }

/-- The outcome the concrete run produces. -/
def outW : Outcome (List Int) := ⟨[5], Gas.new, []⟩

/-- The receipt the concrete `exec_call` produces. -/
def receiptOkW : CallReceipt :=
  { version := 0, success := true, error := none, returndata := some [],
    new_state := some State.zeros, gas_used := Gas.new, logs := [] }

/-- Witness for C8: the default gas value at every level on concrete
inputs. -/
theorem c8_gas_is_default_witness :
    instance_gas_used instOkAlloc = .ok Gas.new ∧
      wasmer_call instTrapAlloc addrW tplAddrW ctorW =
        .error ⟨.FuncFailed addrW tplAddrW ctorW [116, 114, 97, 112], []⟩ ∧
      (⟨.FuncFailed addrW tplAddrW ctorW [116, 114, 97, 112], []⟩ : Failure).err ≠ .OOG ∧
      run templateW worldOkW callCtorW = some (.FullAccess, .ok outW) ∧
      outW.gas_used = Gas.new ∧
      rtAccW.exec_call worldOkW callCtorW = some receiptOkW ∧
      receiptOkW.gas_used = Gas.new ∧ receiptOkW.error ≠ some .OOG :=
  ⟨c8_gas_is_default.1 instOkAlloc,
   rfl,
   c8_gas_is_default.2.1 instTrapAlloc addrW tplAddrW ctorW _ rfl,
   rfl,
   (c8_gas_is_default.2.2.1 templateW worldOkW callCtorW .FullAccess (.ok outW) rfl).2
     outW rfl,
   rfl,
   (c8_gas_is_default.2.2.2 rtAccW worldOkW callCtorW receiptOkW rfl).1,
   (c8_gas_is_default.2.2.2 rtAccW worldOkW callCtorW receiptOkW rfl).2⟩

theorem validate_call_reject_nonspawn_ctor (c : Call) (template : Template)
    (h1 : c.within_spawn = false) (h2 : template.is_ctor c.func_name = true) :
    validate_call c template = .error (Failure.ofError
      (.FuncNotAllowed c.target c.template c.func_name msgExpectedNonCtor)) := by
  unfold validate_call
  rw [h1, h2]
  rfl

theorem validate_call_reject_spawn_nonctor (c : Call) (template : Template)
    (h1 : c.within_spawn = true) (h2 : template.is_ctor c.func_name = false) :
    validate_call c template = .error (Failure.ofError
      (.FuncNotAllowed c.target c.template c.func_name msgExpectedCtor)) := by
  unfold validate_call
  rw [h1, h2]
  rfl

theorem validate_call_pass (c : Call) (template : Template)
    (h : c.within_spawn = template.is_ctor c.func_name) :
    validate_call c template = .ok () := by
  unfold validate_call
  cases hb : template.is_ctor c.func_name with
  | true =>
      rw [hb] at h
      rw [h]
      rfl
  | false =>
      rw [hb] at h
      rw [h]
      rfl

theorem exec_call_no_funcNotAllowed (rt : DefaultRuntime) (world : WasmWorld) (c : Call)
    (template : Template) (hat : rt.env.account_template c.target = some template)
    (hok : validate_call c template = .ok ()) (receipt : CallReceipt)
    (h : rt.exec_call world c = some receipt) :
    ∀ t tpl fn m, receipt.error ≠ some (.FuncNotAllowed t tpl fn m) := by
  intro t tpl fn mm
  unfold DefaultRuntime.exec_call at h
  rw [hat] at h
  dsimp only at h
  cases hrun : run template world c with
  | none =>
      rw [hrun] at h
      nomatch h
  | some p =>
      obtain ⟨m, r⟩ := p
      rw [hrun] at h
      cases r with
      | error f =>
          dsimp only [failure_to_receipt, CallReceipt.from_err] at h
          have hr := (Option.some.inj h).symm
          rw [hr]
          simp only [Option.some.injEq]
          intro hc
          rcases run_err_shape template world c m f hrun with hs | hs | hs | hs | hs | hs | hs | hs
          · rw [hok] at hs
            nomatch hs
          · obtain ⟨msg, rfl⟩ := hs
            nomatch hc
          · obtain ⟨msg, rfl⟩ := hs
            nomatch hc
          · rw [hs] at hc
            nomatch hc
          · rw [hs] at hc
            nomatch hc
          · rw [hs] at hc
            nomatch hc
          · obtain ⟨msg, logs, rfl⟩ := hs
            nomatch hc
          · obtain ⟨msg, logs, rfl⟩ := hs
            nomatch hc
      | ok out =>
          dsimp only at h
          cases hw : world.instantiate with
          | error msg =>
              rw [hw] at h
              nomatch h
          | ok inst =>
              rw [hw] at h
              dsimp only [outcome_to_receipt] at h
              cases htr : take_returndata inst with
              | none =>
                  rw [htr] at h
                  nomatch h
              | some rd =>
                  rw [htr] at h
                  dsimp only [Option.map] at h
                  have hr := (Option.some.inj h).symm
                  rw [hr]
                  simp

theorem call_ctor_no_funcNotAllowed (rt : DefaultRuntime) (world : WasmWorld)
    (base : SpawnAccount) (target : Address) (gas_left : Nat) (template : Template)
    (hat : rt.env.account_template target = some template)
    (hctor : template.is_ctor base.ctor_name = true) (sr : SpawnReceipt)
    (h : rt.call_ctor world base target gas_left = some sr) :
    ∀ t tpl fn m, sr.error ≠ some (.FuncNotAllowed t tpl fn m) := by
  intro t tpl fn mm
  unfold DefaultRuntime.call_ctor at h
  cases hec : rt.exec_call world
      { func_name := base.ctor_name, func_input := base.calldata, state := State.zeros,
        template := base.account.template_addr, target := target, within_spawn := true,
        gas_limit := gas_left, protected_mode := .FullAccess } with
  | none =>
      rw [hec] at h
      nomatch h
  | some r =>
      rw [hec] at h
      dsimp only [Option.map] at h
      have hsr := (Option.some.inj h).symm
      have hnf := exec_call_no_funcNotAllowed rt world _ template hat
        (validate_call_pass _ template hctor.symm) r hec
      rw [hsr]
      unfold into_spawn_receipt
      by_cases hsucc : r.success = true
      · rw [if_pos hsucc]
        simp
      · rw [if_neg hsucc]
        exact hnf t tpl fn mm

/-- Claim C6: the constructor rule. A spawn whose ctor name is not in the
template's `Ctors` returns a `FuncNotAllowed` failure receipt (leaving the
environment untouched); a call (outside a spawn) of a declared ctor returns a
`FuncNotAllowed` failure receipt; the validation passes whenever
within-spawn agrees with ctor-ness; and a spawn of a listed ctor is never
rejected with `FuncNotAllowed`. -/
theorem c6_constructor_rule :
    (∀ (c : Call) (template : Template),
        c.within_spawn = false → template.is_ctor c.func_name = true →
        validate_call c template = .error (Failure.ofError
          (.FuncNotAllowed c.target c.template c.func_name msgExpectedNonCtor)))
    ∧ (∀ (c : Call) (template : Template),
        c.within_spawn = true → template.is_ctor c.func_name = false →
        validate_call c template = .error (Failure.ofError
          (.FuncNotAllowed c.target c.template c.func_name msgExpectedCtor)))
    ∧ (∀ (c : Call) (template : Template),
        c.within_spawn = template.is_ctor c.func_name →
        validate_call c template = .ok ())
    ∧ (∀ (rt : DefaultRuntime) (world : WasmWorld) (pS : List Byte → Nat)
        (pE : List Byte → Option Nat) (cP : Nat → Nat) (envelope : Envelope)
        (message : List Byte) (context : Context) (base : SpawnAccount)
        (rest : List Byte) (template : Template),
        spawn.decode message = .ok (base, rest) →
        rt.env.template base.account.template_addr = some template →
        template.is_ctor base.ctor_name = false →
        ∃ rt2, rt.spawn world pS pE cP envelope message context =
            some (rt2, SpawnReceipt.from_err
              (.FuncNotAllowed (rt.env.computeAccountAddrFn base)
                base.account.template_addr base.ctor_name msgNotACtor) []) ∧
          rt2.env = rt.env)
    ∧ (∀ (rt : DefaultRuntime) (world : WasmWorld) (envelope : Envelope)
        (message : List Byte) (context : Context) (tx : Transaction) (rest : List Byte)
        (templateAddr : TemplateAddr) (template : Template),
        call.decode_call message = .ok (tx, rest) →
        rt.env.resolve_template_addr tx.target.inner = some templateAddr →
        rt.env.account_template tx.target.inner = some template →
        template.is_ctor tx.func_name = true →
        rt.call world envelope message context = some (CallReceipt.from_err
          (.FuncNotAllowed tx.target.inner templateAddr tx.func_name msgExpectedNonCtor) []))
    ∧ (∀ (rt : DefaultRuntime) (world : WasmWorld) (pS : List Byte → Nat)
        (pE : List Byte → Option Nat) (cP : Nat → Nat) (envelope : Envelope)
        (message : List Byte) (context : Context) (base : SpawnAccount)
        (rest : List Byte) (template : Template) (rt2 : DefaultRuntime)
        (receipt : SpawnReceipt),
        spawn.decode message = .ok (base, rest) →
        rt.env.template base.account.template_addr = some template →
        template.is_ctor base.ctor_name = true →
        rt.spawn world pS pE cP envelope message context = some (rt2, receipt) →
        ∀ t tpl fn m, receipt.error ≠ some (.FuncNotAllowed t tpl fn m)) := by
  refine ⟨validate_call_reject_nonspawn_ctor, validate_call_reject_spawn_nonctor,
    validate_call_pass, ?_, ?_, ?_⟩
  · intro rt world pS pE cP envelope message context base rest template hdec htpl hctor
    unfold DefaultRuntime.spawn
    rw [hdec]
    dsimp only
    rw [htpl]
    dsimp only
    rw [if_pos (by rw [hctor]; simp)]
    exact ⟨_, rfl, rfl⟩
  · intro rt world envelope message context tx rest templateAddr template hdec hres hat hctor
    unfold DefaultRuntime.call
    rw [hdec]
    dsimp only
    rw [hres]
    dsimp only
    unfold DefaultRuntime.exec_call
    rw [hat]
    dsimp only
    have hval := validate_call_reject_nonspawn_ctor
      { func_name := tx.func_name, func_input := tx.calldata, state := context.state,
        template := templateAddr, target := tx.target.inner, within_spawn := false,
        gas_limit := envelope.gas_limit, protected_mode := .FullAccess }
      template rfl hctor
    unfold run
    dsimp only
    rw [hval]
    rfl
  · intro rt world pS pE cP envelope message context base rest template rt2 receipt
      hdec htpl hctor hspawn
    unfold DefaultRuntime.spawn at hspawn
    rw [hdec] at hspawn
    dsimp only at hspawn
    rw [htpl] at hspawn
    dsimp only at hspawn
    rw [if_neg (by rw [hctor]; simp)] at hspawn
    cases hgm : template.code_section.gas_mode with
    | Metering =>
        rw [hgm] at hspawn
        nomatch hspawn
    | Fixed =>
        rw [hgm] at hspawn
        cases hpe : pE base.ctor_name with
        | none =>
            rw [hpe] at hspawn
            nomatch hspawn
        | some idx =>
            rw [hpe] at hspawn
            dsimp only at hspawn
            by_cases hp : envelope.gas_limit ≤ spawnFuncPrice rt cP base.account.template_addr idx
            · rw [if_pos hp] at hspawn
              simp only [Option.some.injEq, Prod.mk.injEq] at hspawn
              rw [← hspawn.2]
              intro t tpl fn m
              simp [SpawnReceipt.new_oog, SpawnReceipt.from_err]
            · rw [if_neg hp] at hspawn
              by_cases hpay : pS message ≤ envelope.gas_limit
              · rw [if_pos hpay] at hspawn
                set rt3 : DefaultRuntime :=
                  { rt with template_prices :=
                    (match lookupAssoc rt.template_prices base.account.template_addr with
                      | some _ => rt.template_prices
                      | none => (base.account.template_addr, cP) :: rt.template_prices) }
                  with hrt3
                set target := rt3.env.computeAccountAddrFn base with htarget
                set rt4 : DefaultRuntime :=
                  { rt3 with env := rt3.env.store_account ⟨base.account, envelope.principal⟩ target }
                  with hrt4
                cases hcc : rt4.call_ctor world base target
                    (envelope.gas_limit - pS message) with
                | none =>
                    rw [hcc] at hspawn
                    nomatch hspawn
                | some sr =>
                    rw [hcc] at hspawn
                    dsimp only [Option.map] at hspawn
                    simp only [Option.some.injEq, Prod.mk.injEq] at hspawn
                    rw [← hspawn.2]
                    have hat4 : rt4.env.account_template target = some template := by
                      simp only [hrt4, Env.account_template, Env.account, Env.store_account,
                        lookupAssoc, if_pos rfl]
                      simpa [Env.template, ExtAccount.template_addr] using htpl
                    exact call_ctor_no_funcNotAllowed rt4 world base target
                      (envelope.gas_limit - pS message) template hat4 hctor sr hcc
              · rw [if_neg hpay] at hspawn
                simp only [Option.some.injEq, Prod.mk.injEq] at hspawn
                rw [← hspawn.2]
                intro t tpl fn m
                simp [SpawnReceipt.new_oog, SpawnReceipt.from_err]

/-- A call of the declared ctor outside a spawn (rejected by the rule). -/
def callBadW : Call := { callCtorW with within_spawn := false }

/-- A spawn-side call of a non-ctor (rejected by the rule). -/
def callBad2W : Call := { callCtorW with func_name := [120] }

/-- An encoded spawn message naming a ctor that is not declared. -/
def spawnBadMsgW : List Byte :=
  spawn.encode { version := 0, account := accountW, ctor_name := [120], calldata := [] } []

/-- An encoded spawn message naming the declared ctor. -/
def spawnGoodMsgW : List Byte :=
  spawn.encode { version := 0, account := accountW, ctor_name := ctorW, calldata := [] } []

/-- An encoded call transaction targeting `addrW` with the ctor's name. -/
def callMsgW : List Byte :=
  call.encode_call { version := 0, target := ⟨addrW⟩, func_name := ctorW, calldata := [] } []

/-- A concrete execution context. -/
def ctxW : Context := ⟨State.zeros⟩

/-- The runtime state after the witness spawn (account stored, prices
cached). -/
def rt2W6 : DefaultRuntime :=
  { env := { envW with accounts := [(addrW, ⟨accountW, addrW⟩)] },
    template_prices := [(tplAddrW, fun _ => 0)] }

/-- The successful spawn receipt of the witness spawn. -/
def receiptW6 : SpawnReceipt :=
  { version := 0, success := true, error := none, account_addr := some addrW,
    init_state := some State.zeros, returndata := some [], gas_used := Gas.new, logs := [] }

/-- Witness for C6: the four rule outcomes on concrete inputs. -/
theorem c6_constructor_rule_witness :
    (callBadW.within_spawn = false ∧ templateW.is_ctor callBadW.func_name = true ∧
      validate_call callBadW templateW = .error (Failure.ofError
        (.FuncNotAllowed callBadW.target callBadW.template callBadW.func_name
          msgExpectedNonCtor)))
    ∧ (callBad2W.within_spawn = true ∧ templateW.is_ctor callBad2W.func_name = false ∧
      validate_call callBad2W templateW = .error (Failure.ofError
        (.FuncNotAllowed callBad2W.target callBad2W.template callBad2W.func_name
          msgExpectedCtor)))
    ∧ (callCtorW.within_spawn = templateW.is_ctor callCtorW.func_name ∧
      validate_call callCtorW templateW = .ok ())
    ∧ (spawn.decode spawnBadMsgW =
        .ok ({ version := 0, account := accountW, ctor_name := [120], calldata := [] }, []) ∧
      templateW.is_ctor [120] = false ∧
      (∃ rt2, rtW.spawn worldOkW (fun _ => 0) (fun _ => some 0) (fun _ => 0) ⟨addrW, 100⟩
          spawnBadMsgW ctxW =
          some (rt2, SpawnReceipt.from_err
            (.FuncNotAllowed (rtW.env.computeAccountAddrFn
                { version := 0, account := accountW, ctor_name := [120], calldata := [] })
              accountW.template_addr [120] msgNotACtor) []) ∧
        rt2.env = rtW.env))
    ∧ (call.decode_call callMsgW =
        .ok ({ version := 0, target := ⟨addrW⟩, func_name := ctorW, calldata := [] }, []) ∧
      templateW.is_ctor ctorW = true ∧
      rtAccW.call worldOkW ⟨addrW, 100⟩ callMsgW ctxW = some (CallReceipt.from_err
        (.FuncNotAllowed addrW tplAddrW ctorW msgExpectedNonCtor) []))
    ∧ (rtW.spawn worldOkW (fun _ => 0) (fun _ => some 0) (fun _ => 0) ⟨addrW, 100⟩
        spawnGoodMsgW ctxW = some (rt2W6, receiptW6) ∧
      receiptW6.error ≠ some (.FuncNotAllowed addrW tplAddrW ctorW msgNotACtor)) :=
  ⟨⟨rfl, by decide,
    c6_constructor_rule.1 callBadW templateW rfl (by decide)⟩,
   ⟨rfl, by decide,
    c6_constructor_rule.2.1 callBad2W templateW rfl (by decide)⟩,
   ⟨by decide,
    c6_constructor_rule.2.2.1 callCtorW templateW (by decide)⟩,
   ⟨rfl, by decide,
    c6_constructor_rule.2.2.2.1 rtW worldOkW (fun _ => 0) (fun _ => some 0) (fun _ => 0)
      ⟨addrW, 100⟩ spawnBadMsgW ctxW
      { version := 0, account := accountW, ctor_name := [120], calldata := [] } []
      templateW rfl rfl (by decide)⟩,
   ⟨rfl, by decide,
    c6_constructor_rule.2.2.2.2.1 rtAccW worldOkW ⟨addrW, 100⟩ callMsgW ctxW
      { version := 0, target := ⟨addrW⟩, func_name := ctorW, calldata := [] } []
      tplAddrW templateW rfl rfl rfl (by decide)⟩,
   ⟨rfl,
    c6_constructor_rule.2.2.2.2.2 rtW worldOkW (fun _ => 0) (fun _ => some 0) (fun _ => 0)
      ⟨addrW, 100⟩ spawnGoodMsgW ctxW
      { version := 0, account := accountW, ctor_name := ctorW, calldata := [] } []
      templateW rt2W6 receiptW6 rfl rfl (by decide) rfl
      addrW tplAddrW ctorW msgNotACtor⟩⟩

/-- Claim C9: `spawn` persists the account record via `store_account` before
executing the constructor, so whenever the spawn reaches the
constructor-execution path (all earlier guards passed) and returns a
receipt, the stored account remains in the account store — in particular it
is not rolled back when the constructor execution fails. -/
theorem c9_spawn_account_not_rolled_back :
    ∀ (rt : DefaultRuntime) (world : WasmWorld) (pS : List Byte → Nat)
      (pE : List Byte → Option Nat) (cP : Nat → Nat) (envelope : Envelope)
      (message : List Byte) (context : Context) (base : SpawnAccount)
      (rest : List Byte) (template : Template) (idx : Nat) (rt2 : DefaultRuntime)
      (receipt : SpawnReceipt),
      spawn.decode message = .ok (base, rest) →
      rt.env.template base.account.template_addr = some template →
      template.is_ctor base.ctor_name = true →
      template.code_section.gas_mode = .Fixed →
      pE base.ctor_name = some idx →
      spawnFuncPrice rt cP base.account.template_addr idx < envelope.gas_limit →
      pS message ≤ envelope.gas_limit →
      rt.spawn world pS pE cP envelope message context = some (rt2, receipt) →
      rt2.env.account (rt.env.computeAccountAddrFn base) =
        some ⟨base.account, envelope.principal⟩ := by
  intro rt world pS pE cP envelope message context base rest template idx rt2 receipt
    hdec htpl hctor hgm hpe hprice hpay hspawn
  unfold DefaultRuntime.spawn at hspawn
  rw [hdec] at hspawn
  dsimp only at hspawn
  rw [htpl] at hspawn
  dsimp only at hspawn
  rw [if_neg (by rw [hctor]; simp)] at hspawn
  rw [hgm] at hspawn
  rw [hpe] at hspawn
  dsimp only at hspawn
  rw [if_neg (by omega)] at hspawn
  rw [if_pos hpay] at hspawn
  cases hcc : DefaultRuntime.call_ctor
      { rt with
        template_prices :=
          (match lookupAssoc rt.template_prices base.account.template_addr with
            | some _ => rt.template_prices
            | none => (base.account.template_addr, cP) :: rt.template_prices),
        env := rt.env.store_account ⟨base.account, envelope.principal⟩
          (rt.env.computeAccountAddrFn base) }
      world base (rt.env.computeAccountAddrFn base)
      (envelope.gas_limit - pS message) with
  | none =>
      rw [hcc] at hspawn
      nomatch hspawn
  | some sr =>
      rw [hcc] at hspawn
      dsimp only [Option.map] at hspawn
      simp only [Option.some.injEq, Prod.mk.injEq] at hspawn
      rw [← hspawn.1]
      simp [Env.account, Env.store_account, lookupAssoc]

/-- A world where instantiation succeeds but every invocation traps. -/
def worldTrapW : WasmWorld :=
  { compile := .ok (), instantiate := .ok instTrapAlloc, commitState := State.zeros }

/-- The failed spawn receipt of the witness spawn: the constructor trapped. -/
def receiptW9 : SpawnReceipt :=
  SpawnReceipt.from_err (.FuncFailed addrW tplAddrW ctorW [116, 114, 97, 112]) []

/-- Witness for C9: a concrete spawn whose constructor traps returns a
failure receipt while the stored account record remains. -/
theorem c9_spawn_account_not_rolled_back_witness :
    spawn.decode spawnGoodMsgW =
      .ok ({ version := 0, account := accountW, ctor_name := ctorW, calldata := [] }, []) ∧
    rtW.env.template accountW.template_addr = some templateW ∧
    templateW.is_ctor ctorW = true ∧
    templateW.code_section.gas_mode = .Fixed ∧
    (fun _ : List Byte => some 0) ctorW = some 0 ∧
    spawnFuncPrice rtW (fun _ => 0) accountW.template_addr 0 < (100 : Nat) ∧
    (fun _ : List Byte => (0 : Nat)) spawnGoodMsgW ≤ (100 : Nat) ∧
    rtW.spawn worldTrapW (fun _ => 0) (fun _ => some 0) (fun _ => 0) ⟨addrW, 100⟩
      spawnGoodMsgW ctxW = some (rt2W6, receiptW9) ∧
    receiptW9.success = false ∧
    rt2W6.env.account (rtW.env.computeAccountAddrFn
        { version := 0, account := accountW, ctor_name := ctorW, calldata := [] }) =
      some ⟨accountW, addrW⟩ :=
  ⟨rfl, rfl, by decide, rfl, rfl, by decide, by decide, rfl, rfl,
   c9_spawn_account_not_rolled_back rtW worldTrapW (fun _ => 0) (fun _ => some 0)
     (fun _ => 0) ⟨addrW, 100⟩ spawnGoodMsgW ctxW
     { version := 0, account := accountW, ctor_name := ctorW, calldata := [] } []
     templateW 0 rt2W6 receiptW9 rfl rfl (by decide) rfl rfl (by decide) (by decide) rfl⟩

end Svm
